import Mathlib

/-!
# Verification of the broadcast dispatch engine

A shallow embedding, in Lean 4, of the Python package
`python-telegram-broadcast` (modules `send_method.py`, `strategy.py`,
`custom_util.py`, `custom_dataclass.py`, `main.py`), together with proofs
and refutations of the behavioural properties stated in the package's
specification.

Modelling conventions:
* Python exceptions are explicit: a fallible computation returns
  `Except PyExc α`; a `try/except` block is a `match` on that value.
* Wall-clock quantities (`time.time()` differences, `asyncio.sleep`
  arguments) are rationals; the remote API is an oracle
  `Nat → RemoteOutcome` giving the outcome of each successive remote call.
* `asyncio.sleep` calls are recorded as a list of slept durations; the
  number of remote calls performed is recorded as `attempts`.
* Python's `zip` is the (truncating) `List.zip`; `str | list[str]`
  parameters are the sum type `StrOrList`.
-/

namespace PTB

/-- One Python exception value, tagged by its class.  The classes are those
raised in `send_method.py` / `custom_exception.py`, plus `KeyError` /
`ValueError` (used by enum lookup and strategy selection) and a generic
constructor for every other exception class. -/
inductive PyExc where
  | exceedMaxRetries (target_id : ℤ) (username payload : String) (max_retry : ℤ)
  | telegramSendError (target_id : ℤ) (username payload error : String)
  | timedOut (message : String)
  | forbidden (message : String)
  | fileNotFound (message : String)
  | keyError (key : String)
  | valueError (message : String)
  | generic (name message : String)
deriving DecidableEq, Repr

/-- `type(error).__name__` for each modelled exception class. -/
def PyExc.typeName : PyExc → String
  | .exceedMaxRetries _ _ _ _ => "ExceedMaxRetriesError"
  | .telegramSendError _ _ _ _ => "TelegramSendError"
  | .timedOut _ => "TimedOut"
  | .forbidden _ => "Forbidden"
  | .fileNotFound _ => "FileNotFoundError"
  | .keyError _ => "KeyError"
  | .valueError _ => "ValueError"
  | .generic n _ => n

/-- `str(error)` for each modelled exception class.  The braces-and-fields
templates of `custom_exception.py` are kept abstractly (the exact rendering
of the diagnostic string plays no role in any claim). -/
def PyExc.msg : PyExc → String
  | .exceedMaxRetries t u p m =>
      "target_id: " ++ toString t ++ ", username: " ++ u ++ ", payload: " ++ p
        ++ ", max_retry: " ++ toString m
  | .telegramSendError t u p e =>
      "target_id: " ++ toString t ++ ", username: " ++ u ++ ", payload: " ++ p
        ++ ", error: " ++ e
  | .timedOut m => m
  | .forbidden m => m
  | .fileNotFound m => m
  | .keyError k => k
  | .valueError m => m
  | .generic _ m => m

/-- `traceback.format_exc()`: a runtime-dependent diagnostic string, modelled
opaquely from the exception it reports. -/
def format_exc (e : PyExc) : String :=
  "Traceback (most recent call last): " ++ e.typeName ++ ": " ++ e.msg

/-- `PyExc.isValueError e` iff `except ValueError` would catch `e`. -/
def PyExc.isValueError : PyExc → Bool
  | .valueError _ => true
  | _ => false

/-- The `ErrorInformation` dataclass of `custom_dataclass.py`. -/
structure ErrorInformation where
  error_type : String
  error_message : String
  traceback : String
deriving DecidableEq, Repr

/-- `ErrorInformation(type(error).__name__, str(error), traceback.format_exc())`,
the conversion applied at every `except` site of the engine. -/
def errorInformationOf (e : PyExc) : ErrorInformation :=
  ⟨e.typeName, e.msg, format_exc e⟩

/-- The fields of a `telegram.Message` that the engine reads: `photo` is the
ordered list of generated `PhotoSize` file ids (last = highest resolution),
`document` / `video` the file ids of the sent attachment. -/
structure TgMessage where
  message_id : ℤ
  photo : List String
  document : String
  video : String
deriving DecidableEq, Repr

/-- A success artifact returned by one of the four send methods:
`telegram.Message`, `PhotoSize`, `Document` or `Video`. -/
inductive Artifact where
  | message (m : TgMessage)
  | photoSize (file_id : String)
  | document (file_id : String)
  | video (file_id : String)
deriving DecidableEq, Repr

/-- The `result` field of a `JobResponse`: either a success artifact or an
`ErrorInformation` (the `Union[...]` of `custom_dataclass.py`). -/
inductive JobResult where
  | artifact (a : Artifact)
  | errorInfo (e : ErrorInformation)
deriving DecidableEq, Repr

/-- A Python value of static type `str` that may dynamically also be a
`list[str]` (the `payload` field receives the whole content list in
`AsyncProcessPool`'s collection loop). -/
inductive Payload where
  | str (s : String)
  | list (l : List String)
deriving DecidableEq, Repr

/-- The `JobResponse` dataclass of `custom_dataclass.py`. -/
structure JobResponse where
  telegram_id : ℤ
  username : String
  payload : Payload
  result : JobResult
deriving DecidableEq, Repr

/-- The Boolean test `isinstance(result, ErrorInformation)` used by both
separation functions of `custom_util.py`. -/
def is_error_information : JobResult → Bool
  | .errorInfo _ => true
  | .artifact _ => false

/-- `separate_result_list` of `custom_util.py`: one pass over the list,
appending each `JobResponse` to `sent_list` or `failed_list` according to
`isinstance(result, ErrorInformation)`. -/
def separate_result_list :
    List JobResponse → List JobResponse × List JobResponse
  | [] => ([], [])
  | job_result :: rest =>
      let (sent_list, failed_list) := separate_result_list rest
      if is_error_information job_result.result then
        (sent_list, job_result :: failed_list)
      else
        (job_result :: sent_list, failed_list)

/-- `separate_result_queue` of `custom_util.py`: drains the FIFO queue
(modelled as the list of queued items in arrival order) and classifies each
item exactly as `separate_result_list` does. -/
def separate_result_queue :
    List JobResponse → List JobResponse × List JobResponse
  | [] => ([], [])
  | item :: rest =>
      let (sent_list, failed_list) := separate_result_queue rest
      if is_error_information item.result then
        (sent_list, item :: failed_list)
      else
        (item :: sent_list, failed_list)

/-- The `BroadcastStats` dataclass of `custom_dataclass.py`. -/
structure BroadcastStats where
  n_job : ℤ := 0
  n_success : ℤ := 0
  n_failure : ℤ := 0
deriving DecidableEq, Repr

/-- `BroadcastStats.__add__`: componentwise sum. -/
def BroadcastStats.add (a b : BroadcastStats) : BroadcastStats :=
  { n_job := a.n_job + b.n_job
    n_success := a.n_success + b.n_success
    n_failure := a.n_failure + b.n_failure }

/-- `evaluate_broadcast_stats` of `custom_util.py`. -/
def evaluate_broadcast_stats
    (sent_list failed_list : List JobResponse) : BroadcastStats :=
  { n_job := (sent_list.length : ℤ) + (failed_list.length : ℤ)
    n_success := (sent_list.length : ℤ)
    n_failure := (failed_list.length : ℤ) }

/-- Python `int(q)` on a float: truncation toward zero. -/
def pyInt (q : ℚ) : ℤ := if 0 ≤ q then ⌊q⌋ else ⌈q⌉

/-- A Python `bool` used where a number is expected (`asyncio.sleep(b)`):
`False` is `0`, `True` is `1`. -/
def pyFloatOfBool (b : Bool) : ℚ := if b then 1 else 0

/-- Outcome of one remote Telegram API call, as observed by a send method:
either the sent `telegram.Message` together with the elapsed call time, or
one of the exception classes the `except` clauses of `send_method.py`
distinguish.  `retry_after` is the integer delay reported by `RetryAfter`. -/
inductive RemoteOutcome where
  | success (res : TgMessage) (elapsed : ℚ)
  | retryAfter (retry_after : ℤ)
  | timedOut (elapsed : ℚ)
  | badRequest (message : String)
  | forbidden
  | telegramError (message : String)
  | fileNotFound
  | otherError (name message : String)
deriving Repr

/-- What one call of a send method did: its returned artifact or raised
exception, the number of remote calls performed (first call plus retries),
every `asyncio.sleep` duration in order, and the summed elapsed time of the
remote calls whose duration the source measures (success and timeout). -/
structure SendTrace where
  result : Except PyExc Artifact
  attempts : ℕ
  sleeps : List ℚ
  callTime : ℚ
deriving Repr

/-- Total wall time accounted by a trace: measured remote-call time plus all
sleeps. -/
def SendTrace.wall (t : SendTrace) : ℚ := t.callTime + t.sleeps.sum

/-- The `TimedOut` diagnostic string rebuilt by every send method. -/
def timed_out_message (target_id : ℤ) (payload : String) (sent_time : ℚ) : String :=
  "\x7btelegram_id: \"" ++ toString target_id ++ "\", username: \"NA\", "
    ++ "payload: payload: \"" ++ payload ++ "\", elapsed_seconds: \""
    ++ toString sent_time ++ "\"\x7d"

/-- `sendMessage` of `send_method.py`.  `call n` is the outcome of the
`(n+1)`-th remote call this delivery performs.  On success it sleeps the
remaining pacing interval; on `RetryAfter` it increments `n_retry`, and if
still below `max_retry` sleeps `max(retry_after, int(seconds) + 1)` and
recurses, otherwise raises `ExceedMaxRetriesError`; every other exception is
re-raised (possibly re-wrapped) without retry. -/
def sendMessage (call : ℕ → RemoteOutcome) (target_id : ℤ) (message : String)
    (caption : Option String) (seconds : ℚ) (n_retry max_retry : ℤ) : SendTrace :=
  match call 0 with
  | .success res elapsed =>
      let sent_time := elapsed
      { result := .ok (.message res)
        attempts := 1
        sleeps := if sent_time < seconds then [seconds - sent_time] else []
        callTime := sent_time }
  | .retryAfter retry_after =>
      let n_retry' := n_retry + 1
      if h : n_retry' < max_retry then
        let delay : ℤ := max retry_after (pyInt seconds + 1)
        let rest := sendMessage (fun n => call (n + 1)) target_id message caption
          seconds n_retry' max_retry
        { result := rest.result
          attempts := 1 + rest.attempts
          sleeps := (if (0 : ℚ) < (delay : ℚ) then [(delay : ℚ)] else []) ++ rest.sleeps
          callTime := rest.callTime }
      else
        { result := .error (.exceedMaxRetries target_id "NA" message max_retry)
          attempts := 1, sleeps := [], callTime := 0 }
  | .timedOut elapsed =>
      { result := .error (.timedOut (timed_out_message target_id message elapsed))
        attempts := 1, sleeps := [], callTime := elapsed }
  | .badRequest m =>
      { result := .error (.telegramSendError target_id "NA" message m)
        attempts := 1, sleeps := [], callTime := 0 }
  | .forbidden =>
      { result := .error (.forbidden (toString target_id))
        attempts := 1, sleeps := [], callTime := 0 }
  | .telegramError m =>
      { result := .error (.telegramSendError target_id "NA" message m)
        attempts := 1, sleeps := [], callTime := 0 }
  | .fileNotFound =>
      { result := .error (.telegramSendError target_id "NA" message
          "FileNotFoundError")
        attempts := 1, sleeps := [], callTime := 0 }
  | .otherError _ m =>
      { result := .error (.telegramSendError target_id "NA" message m)
        attempts := 1, sleeps := [], callTime := 0 }
termination_by (max_retry - n_retry).toNat
decreasing_by omega

/-- `sendPhoto` of `send_method.py`.  Same retry/backoff/pacing shape as
`sendMessage`; the success artifact is `res.photo[-1]` (the last, highest
resolution `PhotoSize`; an empty list raises `IndexError`, caught by the
final `except Exception` clause), and `FileNotFoundError` has its own
re-raising handler. -/
def sendPhoto (call : ℕ → RemoteOutcome) (target_id : ℤ) (filename_or_url : String)
    (caption : String) (seconds : ℚ) (n_retry max_retry : ℤ) : SendTrace :=
  match call 0 with
  | .success res elapsed =>
      let sent_time := elapsed
      let pacing : List ℚ := if sent_time < seconds then [seconds - sent_time] else []
      match res.photo.getLast? with
      | some p =>
          { result := .ok (.photoSize p)
            attempts := 1, sleeps := pacing, callTime := sent_time }
      | none =>
          { result := .error (.telegramSendError target_id "NA" filename_or_url
              "list index out of range")
            attempts := 1, sleeps := pacing, callTime := sent_time }
  | .retryAfter retry_after =>
      let n_retry' := n_retry + 1
      if h : n_retry' < max_retry then
        let delay : ℤ := max retry_after (pyInt seconds + 1)
        let rest := sendPhoto (fun n => call (n + 1)) target_id filename_or_url
          caption seconds n_retry' max_retry
        { result := rest.result
          attempts := 1 + rest.attempts
          sleeps := (if (0 : ℚ) < (delay : ℚ) then [(delay : ℚ)] else []) ++ rest.sleeps
          callTime := rest.callTime }
      else
        { result := .error (.exceedMaxRetries target_id "NA" filename_or_url max_retry)
          attempts := 1, sleeps := [], callTime := 0 }
  | .timedOut elapsed =>
      { result := .error (.timedOut (timed_out_message target_id filename_or_url elapsed))
        attempts := 1, sleeps := [], callTime := elapsed }
  | .badRequest m =>
      { result := .error (.telegramSendError target_id "NA" filename_or_url m)
        attempts := 1, sleeps := [], callTime := 0 }
  | .forbidden =>
      { result := .error (.forbidden (toString target_id))
        attempts := 1, sleeps := [], callTime := 0 }
  | .telegramError m =>
      { result := .error (.telegramSendError target_id "NA" filename_or_url m)
        attempts := 1, sleeps := [], callTime := 0 }
  | .fileNotFound =>
      { result := .error (.fileNotFound ("payload: " ++ filename_or_url))
        attempts := 1, sleeps := [], callTime := 0 }
  | .otherError _ m =>
      { result := .error (.telegramSendError target_id "NA" filename_or_url m)
        attempts := 1, sleeps := [], callTime := 0 }
termination_by (max_retry - n_retry).toNat
decreasing_by omega

/-- `sendVideo` of `send_method.py`.  Same shape as `sendPhoto`; the success
artifact is `res.video`. -/
def sendVideo (call : ℕ → RemoteOutcome) (target_id : ℤ) (filename_or_url : String)
    (caption : String) (seconds : ℚ) (n_retry max_retry : ℤ) : SendTrace :=
  match call 0 with
  | .success res elapsed =>
      let sent_time := elapsed
      { result := .ok (.video res.video)
        attempts := 1
        sleeps := if sent_time < seconds then [seconds - sent_time] else []
        callTime := sent_time }
  | .retryAfter retry_after =>
      let n_retry' := n_retry + 1
      if h : n_retry' < max_retry then
        let delay : ℤ := max retry_after (pyInt seconds + 1)
        let rest := sendVideo (fun n => call (n + 1)) target_id filename_or_url
          caption seconds n_retry' max_retry
        { result := rest.result
          attempts := 1 + rest.attempts
          sleeps := (if (0 : ℚ) < (delay : ℚ) then [(delay : ℚ)] else []) ++ rest.sleeps
          callTime := rest.callTime }
      else
        { result := .error (.exceedMaxRetries target_id "NA" filename_or_url max_retry)
          attempts := 1, sleeps := [], callTime := 0 }
  | .timedOut elapsed =>
      { result := .error (.timedOut (timed_out_message target_id filename_or_url elapsed))
        attempts := 1, sleeps := [], callTime := elapsed }
  | .badRequest m =>
      { result := .error (.telegramSendError target_id "NA" filename_or_url m)
        attempts := 1, sleeps := [], callTime := 0 }
  | .forbidden =>
      { result := .error (.forbidden (toString target_id))
        attempts := 1, sleeps := [], callTime := 0 }
  | .telegramError m =>
      { result := .error (.telegramSendError target_id "NA" filename_or_url m)
        attempts := 1, sleeps := [], callTime := 0 }
  | .fileNotFound =>
      { result := .error (.fileNotFound ("payload: " ++ filename_or_url))
        attempts := 1, sleeps := [], callTime := 0 }
  | .otherError _ m =>
      { result := .error (.telegramSendError target_id "NA" filename_or_url m)
        attempts := 1, sleeps := [], callTime := 0 }
termination_by (max_retry - n_retry).toNat
decreasing_by omega

/-- `sendDocument` of `send_method.py`.  Same shape as `sendVideo` with the
success artifact `res.document`, except for its pacing line: the source runs
`await asyncio.sleep(seconds < sent_time)` — it sleeps the *boolean*
`seconds < sent_time` (which is `False`, i.e. `0`, whenever the surrounding
`if sent_time < seconds` guard holds) instead of the remaining interval. -/
def sendDocument (call : ℕ → RemoteOutcome) (target_id : ℤ) (filename_or_url : String)
    (caption : String) (seconds : ℚ) (n_retry max_retry : ℤ) : SendTrace :=
  match call 0 with
  | .success res elapsed =>
      let sent_time := elapsed
      { result := .ok (.document res.document)
        attempts := 1
        sleeps := if sent_time < seconds
          then [pyFloatOfBool (decide (seconds < sent_time))] else []
        callTime := sent_time }
  | .retryAfter retry_after =>
      let n_retry' := n_retry + 1
      if h : n_retry' < max_retry then
        let delay : ℤ := max retry_after (pyInt seconds + 1)
        let rest := sendDocument (fun n => call (n + 1)) target_id filename_or_url
          caption seconds n_retry' max_retry
        { result := rest.result
          attempts := 1 + rest.attempts
          sleeps := (if (0 : ℚ) < (delay : ℚ) then [(delay : ℚ)] else []) ++ rest.sleeps
          callTime := rest.callTime }
      else
        { result := .error (.exceedMaxRetries target_id "NA" filename_or_url max_retry)
          attempts := 1, sleeps := [], callTime := 0 }
  | .timedOut elapsed =>
      { result := .error (.timedOut (timed_out_message target_id filename_or_url elapsed))
        attempts := 1, sleeps := [], callTime := elapsed }
  | .badRequest m =>
      { result := .error (.telegramSendError target_id "NA" filename_or_url m)
        attempts := 1, sleeps := [], callTime := 0 }
  | .forbidden =>
      { result := .error (.forbidden (toString target_id))
        attempts := 1, sleeps := [], callTime := 0 }
  | .telegramError m =>
      { result := .error (.telegramSendError target_id "NA" filename_or_url m)
        attempts := 1, sleeps := [], callTime := 0 }
  | .fileNotFound =>
      { result := .error (.fileNotFound ("payload: " ++ filename_or_url))
        attempts := 1, sleeps := [], callTime := 0 }
  | .otherError _ m =>
      { result := .error (.telegramSendError target_id "NA" filename_or_url m)
        attempts := 1, sleeps := [], callTime := 0 }
termination_by (max_retry - n_retry).toNat
decreasing_by omega

/-- A `str | list[str]` argument of `execute` / `handle_broadcast`. -/
inductive StrOrList where
  | str (s : String)
  | list (l : List String)
deriving DecidableEq, Repr

/-- The `if type(content) is str: content = [content] * len(subscribers)`
normalisation performed by every strategy and by `handle_broadcast`. -/
def toParallel (c : StrOrList) (n : ℕ) : List String :=
  match c with
  | .str s => List.replicate n s
  | .list l => l

/-- Outcome of one `await method(bot, telegram_id, payload, caption, seconds,
0, max_retry)` call as seen by a strategy: the returned artifact, or the
exception the call raised. -/
inductive CallOutcome where
  | ok (a : Artifact)
  | exc (e : PyExc)
deriving Repr

/-- The failure `JobResponse` appended by every `except Exception as error`
clause of the strategies. -/
def errorEntry (telegram_id : ℤ) (username : String) (payload : Payload)
    (e : PyExc) : JobResponse :=
  ⟨telegram_id, username, payload, .errorInfo (errorInformationOf e)⟩

/-- The `try` body of one `AsyncSequential.execute` loop iteration: the
entries it appends to `result_list` before any exception, and the exception
escaping the block, if any.  On success the success entry is appended
*before* the `success_callback` is awaited, so a raising callback leaves the
success entry in place and escapes. -/
def seqTryBody (telegram_id : ℤ) (username payload : String)
    (outcome : CallOutcome) (success_callback : Option (ℤ → Except PyExc Unit)) :
    List JobResponse × Option PyExc :=
  match outcome with
  | .exc e => ([], some e)
  | .ok art =>
      let entry : JobResponse := ⟨telegram_id, username, .str payload, .artifact art⟩
      match success_callback with
      | none => ([entry], none)
      | some f =>
          match f telegram_id with
          | .ok _ => ([entry], none)
          | .error e => ([entry], some e)

/-- One `AsyncSequential.execute` loop iteration: the `try` body followed by
the catch-all `except Exception` handler, which appends an
`ErrorInformation` entry for the escaping exception. -/
def seqIter (telegram_id : ℤ) (username payload : String)
    (outcome : CallOutcome) (success_callback : Option (ℤ → Except PyExc Unit)) :
    List JobResponse :=
  match seqTryBody telegram_id username payload outcome success_callback with
  | (entries, none) => entries
  | (entries, some e) =>
      entries ++ [errorEntry telegram_id username (.str payload) e]

/-- The `for (telegram_id, username), _payload, _caption in
zip(subscribers, content, caption)` loop of `AsyncSequential.execute`;
`method i` is the outcome of the delivery performed at iteration `i`. -/
def seqLoop : List ((ℤ × String) × String × String) → ℕ → (ℕ → CallOutcome) →
    Option (ℤ → Except PyExc Unit) → List JobResponse
  | [], _, _, _ => []
  | ((telegram_id, username), _payload, _) :: rest, i, method, success_callback =>
      seqIter telegram_id username _payload (method i) success_callback ++
        seqLoop rest (i + 1) method success_callback

/-- `AsyncSequential.execute` of `strategy.py`: normalise `content` /
`caption` to parallel lists, run the sequential loop, then separate. -/
def AsyncSequential.execute (subscribers : List (ℤ × String))
    (content caption : StrOrList) (method : ℕ → CallOutcome)
    (success_callback : Option (ℤ → Except PyExc Unit)) :
    List JobResponse × List JobResponse :=
  let n := subscribers.length
  let rows := subscribers.zip ((toParallel content n).zip (toParallel caption n))
  separate_result_list (seqLoop rows 0 method success_callback)

/-- The sequential loop with its exception channel explicit: each iteration
runs the `try` body and the catch-all handler consumes any escaping
exception; an exception not consumed by a handler would surface as
`.error`. -/
def seqLoopE : List ((ℤ × String) × String × String) → ℕ → (ℕ → CallOutcome) →
    Option (ℤ → Except PyExc Unit) → List JobResponse →
    Except PyExc (List JobResponse)
  | [], _, _, _, acc => .ok acc
  | ((telegram_id, username), _payload, _) :: rest, i, method, success_callback, acc =>
      match seqTryBody telegram_id username _payload (method i) success_callback with
      | (entries, none) =>
          seqLoopE rest (i + 1) method success_callback (acc ++ entries)
      | (entries, some e) =>
          seqLoopE rest (i + 1) method success_callback
            (acc ++ (entries ++ [errorEntry telegram_id username (.str _payload) e]))

/-- `AsyncSequential.execute` with the exception channel explicit. -/
def AsyncSequential.executeE (subscribers : List (ℤ × String))
    (content caption : StrOrList) (method : ℕ → CallOutcome)
    (success_callback : Option (ℤ → Except PyExc Unit)) :
    Except PyExc (List JobResponse × List JobResponse) :=
  let n := subscribers.length
  let rows := subscribers.zip ((toParallel content n).zip (toParallel caption n))
  match seqLoopE rows 0 method success_callback [] with
  | .error e => .error e
  | .ok result_list => .ok (separate_result_list result_list)

/-- `broadcast_method_wrapper` of `send_method.py`: runs the method in a
fresh event loop inside the worker process and converts any raised exception
into an `ErrorInformation` return value. -/
def broadcast_method_wrapper (run : Except PyExc Artifact) : JobResult :=
  match run with
  | .ok a => .artifact a
  | .error e => .errorInfo (errorInformationOf e)

/-- The submission loop of `AsyncProcessPool.execute`: for each row, the
`run_in_executor` call either yields a future (recorded here by the index of
its submitted row) or raises, in which case the `except` clause puts a
failure entry on the result queue and no future is appended.  Returns the
queued failure entries and the submitted row indices, both in row order. -/
def poolSubmit : List ((ℤ × String) × String × String) → ℕ →
    (ℕ → Option PyExc) → List JobResponse × List ℕ
  | [], _, _ => ([], [])
  | ((telegram_id, username), _payload, _) :: rest, i, submit =>
      let (fails, futures) := poolSubmit rest (i + 1) submit
      match submit i with
      | none => (fails, i :: futures)
      | some e => (errorEntry telegram_id username (.str _payload) e :: fails, futures)

/-- The collection loop of `AsyncProcessPool.execute`:
`for future, (telegram_id, username), _payload in zip(futures, subscribers,
content)` — the `j`-th future (computed for the row it was submitted for) is
attributed to subscriber `j` and `_payload = content[j]`.  The first queued
entry carries the *whole content list* as its payload (the source passes
`content`, not `_payload`); a raising success callback queues a second,
failure entry for the same subscriber. -/
def poolCollect (contentList : List String)
    (success_callback : Option (ℤ → Except PyExc Unit))
    (methodRun : ℕ → Except PyExc Artifact) :
    List (ℕ × (ℤ × String) × String) → List JobResponse
  | [] => []
  | (fi, (telegram_id, username), _payload) :: rest =>
      let result := broadcast_method_wrapper (methodRun fi)
      let entry : JobResponse := ⟨telegram_id, username, .list contentList, result⟩
      let entries :=
        if is_error_information result then [entry]
        else
          match success_callback with
          | none => [entry]
          | some f =>
              match f telegram_id with
              | .ok _ => [entry]
              | .error e => [entry, errorEntry telegram_id username (.str _payload) e]
      entries ++ poolCollect contentList success_callback methodRun rest

/-- `AsyncProcessPool.execute` of `strategy.py`: submit one task per row
(submission failures are queued as failure entries), await the futures,
collect by zipping the futures against the subscriber and content lists from
their start, then separate the drained queue.  `methodRun i` is what the
method would return or raise when run in a worker for row `i`; `submit i`
is the exception raised at submission of row `i`, if any.  (The
`use_nproc`-to-`os.cpu_count()` clamping only sizes the executor and does
not affect which entries are produced.) -/
def AsyncProcessPool.execute (subscribers : List (ℤ × String))
    (content caption : StrOrList) (methodRun : ℕ → Except PyExc Artifact)
    (submit : ℕ → Option PyExc)
    (success_callback : Option (ℤ → Except PyExc Unit)) :
    List JobResponse × List JobResponse :=
  let n := subscribers.length
  let contentL := toParallel content n
  let rows := subscribers.zip (contentL.zip (toParallel caption n))
  let (subFails, futures) := poolSubmit rows 0 submit
  let triples := futures.zip (subscribers.zip contentL)
  separate_result_queue
    (subFails ++ poolCollect contentL success_callback methodRun triples)

/-- The collection loop of `AsyncMultiProcessingPool.execute`:
`for (result, telegram_id, username), _payload in zip(results, content)` —
`result.get()` returns the wrapper's value (the wrapper converts every
worker exception into `ErrorInformation`), and a raising success callback is
caught and queued as a failure entry for the same subscriber. -/
def mpCollect (success_callback : Option (ℤ → Except PyExc Unit))
    (methodRun : ℕ → Except PyExc Artifact) :
    List ((ℕ × ℤ × String) × String) → List JobResponse
  | [] => []
  | ((i, telegram_id, username), _payload) :: rest =>
      let send_result := broadcast_method_wrapper (methodRun i)
      let entry : JobResponse := ⟨telegram_id, username, .str _payload, send_result⟩
      let entries :=
        if is_error_information send_result then [entry]
        else
          match success_callback with
          | none => [entry]
          | some f =>
              match f telegram_id with
              | .ok _ => [entry]
              | .error e => [entry, errorEntry telegram_id username (.str _payload) e]
      entries ++ mpCollect success_callback methodRun rest

/-- `AsyncMultiProcessingPool.execute` of `strategy.py`: `apply_async` one
task per row, keeping `(result, telegram_id, username)` in row order, join
the pool, then collect by zipping the results against the content list, and
separate the drained queue. -/
def AsyncMultiProcessingPool.execute (subscribers : List (ℤ × String))
    (content caption : StrOrList) (methodRun : ℕ → Except PyExc Artifact)
    (success_callback : Option (ℤ → Except PyExc Unit)) :
    List JobResponse × List JobResponse :=
  let n := subscribers.length
  let contentL := toParallel content n
  let rows := subscribers.zip (contentL.zip (toParallel caption n))
  let results := rows.enum.map (fun p => (p.1, p.2.1.1, p.2.1.2))
  separate_result_queue
    (mpCollect success_callback methodRun (results.zip contentL))

/-- The `BroadcastStrategyType` enum of `strategy.py`. -/
inductive BroadcastStrategyType where
  | ASYNCIO_SEQUENTIAL
  | ASYNCIO_MULTIPROCESSING_POOL
  | ASYNCIO_PROCESS_POOL
deriving DecidableEq, Repr

/-- The `.value` string of each `BroadcastStrategyType` member. -/
def BroadcastStrategyType.value : BroadcastStrategyType → String
  | .ASYNCIO_SEQUENTIAL => "async_sequential"
  | .ASYNCIO_MULTIPROCESSING_POOL => "async_multiprocessing_pool"
  | .ASYNCIO_PROCESS_POOL => "async_process_pool"

/-- Member-name lookup for `BroadcastStrategyType` (the name table Python's
`Enum.__getitem__` consults). -/
def BroadcastStrategyType.fromName : String → Option BroadcastStrategyType
  | "ASYNCIO_SEQUENTIAL" => some .ASYNCIO_SEQUENTIAL
  | "ASYNCIO_MULTIPROCESSING_POOL" => some .ASYNCIO_MULTIPROCESSING_POOL
  | "ASYNCIO_PROCESS_POOL" => some .ASYNCIO_PROCESS_POOL
  | _ => none

/-- `BroadcastStrategyType[enum_value]`: Python enum name indexing, raising
`KeyError` for a string that is not a member name. -/
def BroadcastStrategyType.getitem (enum_value : String) :
    Except PyExc BroadcastStrategyType :=
  match BroadcastStrategyType.fromName enum_value with
  | some v => .ok v
  | none => .error (.keyError enum_value)

/-- The `BroadcastMethodType` enum of `send_method.py`. -/
inductive BroadcastMethodType where
  | TEXT
  | PHOTO
  | DOCUMENT
  | VIDEO
deriving DecidableEq, Repr

/-- The `.value` string of each `BroadcastMethodType` member. -/
def BroadcastMethodType.value : BroadcastMethodType → String
  | .TEXT => "Text"
  | .PHOTO => "Photo"
  | .DOCUMENT => "Document"
  | .VIDEO => "Video"

/-- Member-name lookup for `BroadcastMethodType`. -/
def BroadcastMethodType.fromName : String → Option BroadcastMethodType
  | "TEXT" => some .TEXT
  | "PHOTO" => some .PHOTO
  | "DOCUMENT" => some .DOCUMENT
  | "VIDEO" => some .VIDEO
  | _ => none

/-- `BroadcastMethodType[enum_value]`. -/
def BroadcastMethodType.getitem (enum_value : String) :
    Except PyExc BroadcastMethodType :=
  match BroadcastMethodType.fromName enum_value with
  | some v => .ok v
  | none => .error (.keyError enum_value)

/-- `try: body except <caught classes>: handler` — the handler runs only on
exceptions of a caught class; every other exception propagates. -/
def pyTryExcept {α : Type} (body : Except PyExc α) (catches : PyExc → Bool)
    (handler : PyExc → Except PyExc α) : Except PyExc α :=
  match body with
  | .ok a => .ok a
  | .error e => if catches e then handler e else .error e

/-- `string_to_BroadcastStrategyType` of `strategy.py`: enum name indexing
inside a `try` whose only handler, `except ValueError: raise`, re-raises. -/
def string_to_BroadcastStrategyType (enum_value : String) :
    Except PyExc BroadcastStrategyType :=
  pyTryExcept (BroadcastStrategyType.getitem enum_value) PyExc.isValueError
    (fun e => .error e)

/-- `string_to_BroadcastMethodType` of `send_method.py`: same shape. -/
def string_to_BroadcastMethodType (enum_value : String) :
    Except PyExc BroadcastMethodType :=
  pyTryExcept (BroadcastMethodType.getitem enum_value) PyExc.isValueError
    (fun e => .error e)

/-- The three strategy implementations `select_broadcast_strategy` can
return. -/
inductive Strategy where
  | asyncSequential
  | asyncMultiProcessingPool
  | asyncProcessPool
deriving DecidableEq, Repr

/-- A Python value passed where a `BroadcastStrategyType` is expected:
an enum member, or (Python being dynamically typed) any other value — the
case guarded by the final `raise ValueError`. -/
inductive StrategyArg where
  | member (s : BroadcastStrategyType)
  | other
deriving DecidableEq, Repr

/-- `select_broadcast_strategy` of `strategy.py`: the three equality tests
in source order, then `raise ValueError("Invalid broadcast strategy")`. -/
def select_broadcast_strategy : StrategyArg → Except PyExc Strategy
  | .member .ASYNCIO_SEQUENTIAL => .ok .asyncSequential
  | .member .ASYNCIO_MULTIPROCESSING_POOL => .ok .asyncMultiProcessingPool
  | .member .ASYNCIO_PROCESS_POOL => .ok .asyncProcessPool
  | .other => .error (.valueError "Invalid broadcast strategy")

/-- The four send functions `select_broadcast_method` can return. -/
inductive SendFn where
  | sendMessageFn
  | sendPhotoFn
  | sendDocumentFn
  | sendVideoFn
deriving DecidableEq, Repr

/-- A Python value passed where a `BroadcastMethodType` is expected. -/
inductive MethodArg where
  | member (m : BroadcastMethodType)
  | other
deriving DecidableEq, Repr

/-- `select_broadcast_method` of `send_method.py`: the four equality tests
in source order, then `raise ValueError(f"Invalid dtype: ...")`. -/
def select_broadcast_method : MethodArg → Except PyExc SendFn
  | .member .PHOTO => .ok .sendPhotoFn
  | .member .DOCUMENT => .ok .sendDocumentFn
  | .member .VIDEO => .ok .sendVideoFn
  | .member .TEXT => .ok .sendMessageFn
  | .other => .error (.valueError "Invalid dtype")

/-- The nondeterministic inputs a broadcast run depends on: the per-iteration
method outcome seen by the sequential loop, the per-row method result
computed in a worker, the per-row submission exception (if any), and the
success callback. -/
structure ExecEnv where
  method : ℕ → CallOutcome
  methodRun : ℕ → Except PyExc Artifact
  submit : ℕ → Option PyExc
  success_callback : Option (ℤ → Except PyExc Unit)

/-- Dispatch to the selected strategy's `execute`. -/
def run_strategy (s : Strategy) (env : ExecEnv) (subscribers : List (ℤ × String))
    (content caption : StrOrList) : List JobResponse × List JobResponse :=
  match s with
  | .asyncSequential =>
      AsyncSequential.execute subscribers content caption env.method
        env.success_callback
  | .asyncProcessPool =>
      AsyncProcessPool.execute subscribers content caption env.methodRun
        env.submit env.success_callback
  | .asyncMultiProcessingPool =>
      AsyncMultiProcessingPool.execute subscribers content caption env.methodRun
        env.success_callback

/-- `handle_broadcast` of `main.py`: normalise `content` / `caption` to
parallel lists (replicating a bare string to the *subscriber* count,
performing no length comparison for list arguments), select the broadcast
method and the strategy (each selection may raise), and run the strategy.
The surrounding `try ... except Exception: raise` re-raises unchanged. -/
def handle_broadcast (subscribers : List (ℤ × String))
    (broadcast_method : MethodArg) (broadcast_strategy : StrategyArg)
    (content caption : StrOrList) (env : ExecEnv) :
    Except PyExc (List JobResponse × List JobResponse) :=
  let n := subscribers.length
  let content' : StrOrList := .list (toParallel content n)
  let caption' : StrOrList := .list (toParallel caption n)
  match select_broadcast_method broadcast_method with
  | .error e => .error e
  | .ok _ =>
      match select_broadcast_strategy broadcast_strategy with
      | .error e => .error e
      | .ok strat => .ok (run_strategy strat env subscribers content' caption')

/-- The recipient (`telegram_id`, `username`) of each entry of a result
list. -/
def recipientsOf (l : List JobResponse) : List (ℤ × String) :=
  l.map (fun jr => (jr.telegram_id, jr.username))

/-- The success callback, when present, never raises. -/
def callbackNeverRaises (cb : Option (ℤ → Except PyExc Unit)) : Prop :=
  ∀ f, cb = some f → ∀ t : ℤ, (f t).isOk = true

/-- A concrete all-success environment: every delivery returns a
`PhotoSize`, no submission ever fails, no callback is registered. -/
def allOkEnv : ExecEnv :=
  ⟨fun _ => .ok (.photoSize "file"), fun _ => .ok (.photoSize "file"),
    fun _ => none, none⟩

/-- The process-pool submission loop with its exception channel explicit:
each row's `run_in_executor` either yields a future or raises, and the
per-row `except Exception` clause consumes the exception, queueing a failure
entry — no exception escapes the loop. -/
def poolSubmitE : List ((ℤ × String) × String × String) → ℕ →
    (ℕ → Option PyExc) → Except PyExc (List JobResponse × List ℕ)
  | [], _, _ => .ok ([], [])
  | ((telegram_id, username), _payload, _) :: rest, i, submit =>
      match submit i with
      | none =>
          match poolSubmitE rest (i + 1) submit with
          | .error e => .error e
          | .ok (fails, futures) => .ok (fails, i :: futures)
      | some e =>
          match poolSubmitE rest (i + 1) submit with
          | .error e2 => .error e2
          | .ok (fails, futures) =>
              .ok (errorEntry telegram_id username (.str _payload) e :: fails,
                futures)

/-- The `try` body of one process-pool collection iteration: the entries
queued before any exception (the result entry is queued first), and the
exception escaping the block (a raising success callback), if any. -/
def poolTryBody (contentList : List String) (telegram_id : ℤ)
    (username _payload : String) (result : JobResult)
    (success_callback : Option (ℤ → Except PyExc Unit)) :
    List JobResponse × Option PyExc :=
  let entry : JobResponse := ⟨telegram_id, username, .list contentList, result⟩
  if is_error_information result then ([entry], none)
  else
    match success_callback with
    | none => ([entry], none)
    | some f =>
        match f telegram_id with
        | .ok _ => ([entry], none)
        | .error e => ([entry], some e)

/-- The process-pool collection loop with its exception channel explicit:
each iteration's `try` body may let a callback exception escape, and the
catch-all `except Exception` clause consumes it, queueing a failure
entry. -/
def poolCollectE (contentList : List String)
    (success_callback : Option (ℤ → Except PyExc Unit))
    (methodRun : ℕ → Except PyExc Artifact) :
    List (ℕ × (ℤ × String) × String) → Except PyExc (List JobResponse)
  | [] => .ok []
  | (fi, (telegram_id, username), _payload) :: rest =>
      match poolTryBody contentList telegram_id username _payload
          (broadcast_method_wrapper (methodRun fi)) success_callback with
      | (entries, none) =>
          match poolCollectE contentList success_callback methodRun rest with
          | .error e => .error e
          | .ok l => .ok (entries ++ l)
      | (entries, some e) =>
          match poolCollectE contentList success_callback methodRun rest with
          | .error e2 => .error e2
          | .ok l =>
              .ok ((entries ++
                [errorEntry telegram_id username (.str _payload) e]) ++ l)

/-- `AsyncProcessPool.execute` with its exception channels explicit: both
its submission loop and its collection loop wrap each iteration in a
catch-all `except Exception` clause, so no per-recipient exception
escapes. -/
def AsyncProcessPool.executeE (subscribers : List (ℤ × String))
    (content caption : StrOrList) (methodRun : ℕ → Except PyExc Artifact)
    (submit : ℕ → Option PyExc)
    (success_callback : Option (ℤ → Except PyExc Unit)) :
    Except PyExc (List JobResponse × List JobResponse) :=
  let n := subscribers.length
  let contentL := toParallel content n
  let rows := subscribers.zip (contentL.zip (toParallel caption n))
  match poolSubmitE rows 0 submit with
  | .error e => .error e
  | .ok (subFails, futures) =>
      match poolCollectE contentL success_callback methodRun
          (futures.zip (subscribers.zip contentL)) with
      | .error e => .error e
      | .ok collected => .ok (separate_result_queue (subFails ++ collected))

/-- The submission loop of `AsyncMultiProcessingPool.execute` with its
exception channel explicit: the `pool.apply_async` call has NO surrounding
`try`, so a submission-time exception propagates out of the loop and aborts
the batch.  `submit i` is the exception raised at submission of row `i`, if
any. -/
def mpSubmitE : List ((ℤ × String) × String × String) → ℕ →
    (ℕ → Option PyExc) → Except PyExc (List (ℕ × ℤ × String))
  | [], _, _ => .ok []
  | ((telegram_id, username), _, _) :: rest, i, submit =>
      match submit i with
      | some e => .error e
      | none =>
          match mpSubmitE rest (i + 1) submit with
          | .error e => .error e
          | .ok results => .ok ((i, telegram_id, username) :: results)

/-- The `try` body of one multiprocessing-pool collection iteration: the
entries queued before any exception, and the exception escaping the block (a
raising success callback), if any. -/
def mpTryBody (telegram_id : ℤ) (username _payload : String)
    (send_result : JobResult)
    (success_callback : Option (ℤ → Except PyExc Unit)) :
    List JobResponse × Option PyExc :=
  let entry : JobResponse := ⟨telegram_id, username, .str _payload, send_result⟩
  if is_error_information send_result then ([entry], none)
  else
    match success_callback with
    | none => ([entry], none)
    | some f =>
        match f telegram_id with
        | .ok _ => ([entry], none)
        | .error e => ([entry], some e)

/-- The multiprocessing-pool collection loop with its exception channel
explicit: each iteration's escaping exception is consumed by its catch-all
`except Exception` clause. -/
def mpCollectE (success_callback : Option (ℤ → Except PyExc Unit))
    (methodRun : ℕ → Except PyExc Artifact) :
    List ((ℕ × ℤ × String) × String) → Except PyExc (List JobResponse)
  | [] => .ok []
  | ((i, telegram_id, username), _payload) :: rest =>
      match mpTryBody telegram_id username _payload
          (broadcast_method_wrapper (methodRun i)) success_callback with
      | (entries, none) =>
          match mpCollectE success_callback methodRun rest with
          | .error e => .error e
          | .ok l => .ok (entries ++ l)
      | (entries, some e) =>
          match mpCollectE success_callback methodRun rest with
          | .error e2 => .error e2
          | .ok l =>
              .ok ((entries ++
                [errorEntry telegram_id username (.str _payload) e]) ++ l)

/-- `AsyncMultiProcessingPool.execute` with its exception channels explicit:
collection is guarded per row, but submission is not — a submission-time
exception propagates and the batch aborts with that exception. -/
def AsyncMultiProcessingPool.executeE (subscribers : List (ℤ × String))
    (content caption : StrOrList) (methodRun : ℕ → Except PyExc Artifact)
    (submit : ℕ → Option PyExc)
    (success_callback : Option (ℤ → Except PyExc Unit)) :
    Except PyExc (List JobResponse × List JobResponse) :=
  let n := subscribers.length
  let contentL := toParallel content n
  let rows := subscribers.zip (contentL.zip (toParallel caption n))
  match mpSubmitE rows 0 submit with
  | .error e => .error e
  | .ok results =>
      match mpCollectE success_callback methodRun (results.zip contentL) with
      | .error e => .error e
      | .ok queue => .ok (separate_result_queue queue)

/-- `separate_result_list` is exactly the pair of stable filters by the
`isinstance(result, ErrorInformation)` test. -/
theorem separate_result_list_eq_filter (l : List JobResponse) :
    separate_result_list l =
      (l.filter (fun jr => !is_error_information jr.result),
       l.filter (fun jr => is_error_information jr.result)) := by
  induction l with
  | nil => rfl
  | cons jr rest ih =>
      simp only [separate_result_list, ih, List.filter_cons]
      by_cases h : is_error_information jr.result <;> simp [h]

/-- Draining the queue classifies identically to the list version. -/
theorem separate_result_queue_eq_list (l : List JobResponse) :
    separate_result_queue l = separate_result_list l := by
  induction l with
  | nil => rfl
  | cons jr rest ih => simp only [separate_result_queue, separate_result_list, ih]

/-- The two output lists of `separate_result_list`, concatenated failures
first, are a permutation of the input. -/
theorem separate_result_list_perm (l : List JobResponse) :
    ((separate_result_list l).2 ++ (separate_result_list l).1).Perm l := by
  rw [separate_result_list_eq_filter]
  exact List.filter_append_perm (fun jr => is_error_information jr.result) l

/-- C6: `evaluate_broadcast_stats succeeded failed` returns `BroadcastStats`
with `n_success = |succeeded|`, `n_failure = |failed|` and
`n_job = n_success + n_failure`; and the componentwise-sum combine
`BroadcastStats.add` preserves the invariant `n_job = n_success + n_failure`. -/
theorem c6_broadcast_stats_invariant :
    (∀ sent_list failed_list : List JobResponse,
      (evaluate_broadcast_stats sent_list failed_list).n_success =
          (sent_list.length : ℤ) ∧
      (evaluate_broadcast_stats sent_list failed_list).n_failure =
          (failed_list.length : ℤ) ∧
      (evaluate_broadcast_stats sent_list failed_list).n_job =
          (evaluate_broadcast_stats sent_list failed_list).n_success +
            (evaluate_broadcast_stats sent_list failed_list).n_failure) ∧
    (∀ a b : BroadcastStats,
      a.n_job = a.n_success + a.n_failure →
      b.n_job = b.n_success + b.n_failure →
      (a.add b).n_job = (a.add b).n_success + (a.add b).n_failure) := by
  refine ⟨fun sent_list failed_list => ⟨rfl, rfl, rfl⟩, fun a b ha hb => ?_⟩
  simp only [BroadcastStats.add, ha, hb]
  ring

/-- Concrete check of C6: stats of a two-element success list and a
one-element failure list, and a combine of two invariant-satisfying values. -/
theorem c6_broadcast_stats_invariant_witness :
    ((evaluate_broadcast_stats
        [⟨1, "a", .str "p", .artifact (.photoSize "f")⟩,
         ⟨2, "b", .str "p", .artifact (.photoSize "g")⟩]
        [⟨3, "c", .str "p", .errorInfo ⟨"Forbidden", "3", "tb"⟩⟩]).n_success = 2 ∧
      (BroadcastStats.add ⟨3, 2, 1⟩ ⟨2, 0, 2⟩).n_job =
        (BroadcastStats.add ⟨3, 2, 1⟩ ⟨2, 0, 2⟩).n_success +
          (BroadcastStats.add ⟨3, 2, 1⟩ ⟨2, 0, 2⟩).n_failure) := by
  exact ⟨(c6_broadcast_stats_invariant.1 _ _).1,
    c6_broadcast_stats_invariant.2 ⟨3, 2, 1⟩ ⟨2, 0, 2⟩ (by decide) (by decide)⟩

/-- C7: the result partition is stable — both outputs are (order-preserving)
sublists of the input, every occurrence of an input element lands in exactly
one output (counts add up, the outputs are disjoint in membership), the
queue-draining variant agrees with the list variant, and classification
depends only on which variant the `result` field holds, never on the error
kind carried inside `ErrorInformation`. -/
theorem c7_partition_stable_and_outcome_only (l : List JobResponse) :
    (separate_result_list l).1.Sublist l ∧
    (separate_result_list l).2.Sublist l ∧
    (∀ jr : JobResponse,
      (separate_result_list l).1.count jr + (separate_result_list l).2.count jr =
        l.count jr) ∧
    (∀ jr : JobResponse,
      jr ∈ (separate_result_list l).1 → jr ∉ (separate_result_list l).2) ∧
    separate_result_queue l = separate_result_list l ∧
    (∀ e : ErrorInformation, is_error_information (.errorInfo e) = true) ∧
    (∀ a : Artifact, is_error_information (.artifact a) = false) := by
  refine ⟨?_, ?_, ?_, ?_, separate_result_queue_eq_list l, fun _ => rfl, fun _ => rfl⟩
  · rw [separate_result_list_eq_filter]; exact List.filter_sublist l
  · rw [separate_result_list_eq_filter]; exact List.filter_sublist l
  · intro jr
    have h := (separate_result_list_perm l).count_eq jr
    rw [List.count_append] at h
    omega
  · intro jr h1 h2
    rw [separate_result_list_eq_filter] at h1 h2
    have e1 := List.of_mem_filter h1
    have e2 := List.of_mem_filter h2
    simp only [Bool.not_eq_true'] at e1
    rw [e1] at e2
    exact Bool.false_ne_true e2

/-- Concrete check of C7 on a three-element mixed list. -/
theorem c7_partition_stable_and_outcome_only_witness :
    (separate_result_list
        [⟨1, "a", .str "p", .artifact (.photoSize "f")⟩,
         ⟨2, "b", .str "p", .errorInfo ⟨"TimedOut", "m", "tb"⟩⟩,
         ⟨3, "c", .str "p", .artifact (.document "d")⟩]).1.count
        ⟨1, "a", .str "p", .artifact (.photoSize "f")⟩ +
      (separate_result_list
        [⟨1, "a", .str "p", .artifact (.photoSize "f")⟩,
         ⟨2, "b", .str "p", .errorInfo ⟨"TimedOut", "m", "tb"⟩⟩,
         ⟨3, "c", .str "p", .artifact (.document "d")⟩]).2.count
        ⟨1, "a", .str "p", .artifact (.photoSize "f")⟩ =
      List.count (⟨1, "a", .str "p", .artifact (.photoSize "f")⟩ : JobResponse)
        ([⟨1, "a", .str "p", .artifact (.photoSize "f")⟩,
          ⟨2, "b", .str "p", .errorInfo ⟨"TimedOut", "m", "tb"⟩⟩,
          ⟨3, "c", .str "p", .artifact (.document "d")⟩] : List JobResponse) := by
  exact (c7_partition_stable_and_outcome_only _).2.2.1 _

/-- A continuously rate-limited `sendMessage` performs exactly
`max_retry - n_retry` remote calls and ends in `ExceedMaxRetriesError`. -/
theorem sendMessage_rate_limited_forever (k : ℕ) :
    ∀ (ra : ℕ → ℤ) (target_id : ℤ) (message : String) (caption : Option String)
      (seconds : ℚ) (n_retry max_retry : ℤ),
      n_retry < max_retry → (max_retry - n_retry).toNat = k →
      (sendMessage (fun n => RemoteOutcome.retryAfter (ra n)) target_id message
          caption seconds n_retry max_retry).attempts = k ∧
      (sendMessage (fun n => RemoteOutcome.retryAfter (ra n)) target_id message
          caption seconds n_retry max_retry).result =
        .error (.exceedMaxRetries target_id "NA" message max_retry) := by
  induction k with
  | zero => intro ra target_id message caption seconds n_retry max_retry h hk; omega
  | succ k ih =>
      intro ra target_id message caption seconds n_retry max_retry h hk
      rw [sendMessage]
      by_cases h2 : n_retry + 1 < max_retry
      · have hk' : (max_retry - (n_retry + 1)).toNat = k := by omega
        have rest := ih (fun n => ra (n + 1)) target_id message caption seconds
          (n_retry + 1) max_retry h2 hk'
        simp only [dif_pos h2]
        refine ⟨?_, ?_⟩
        · simp only [rest.1]
          omega
        · exact rest.2
      · have hk0 : k = 0 := by omega
        simp only [dif_neg h2]
        refine ⟨?_, ?_⟩
        · omega
        · trivial

/-- A continuously rate-limited `sendPhoto` performs exactly
`max_retry - n_retry` remote calls and ends in `ExceedMaxRetriesError`. -/
theorem sendPhoto_rate_limited_forever (k : ℕ) :
    ∀ (ra : ℕ → ℤ) (target_id : ℤ) (filename_or_url caption : String)
      (seconds : ℚ) (n_retry max_retry : ℤ),
      n_retry < max_retry → (max_retry - n_retry).toNat = k →
      (sendPhoto (fun n => RemoteOutcome.retryAfter (ra n)) target_id
          filename_or_url caption seconds n_retry max_retry).attempts = k ∧
      (sendPhoto (fun n => RemoteOutcome.retryAfter (ra n)) target_id
          filename_or_url caption seconds n_retry max_retry).result =
        .error (.exceedMaxRetries target_id "NA" filename_or_url max_retry) := by
  induction k with
  | zero => intro ra target_id fn caption seconds n_retry max_retry h hk; omega
  | succ k ih =>
      intro ra target_id fn caption seconds n_retry max_retry h hk
      rw [sendPhoto]
      by_cases h2 : n_retry + 1 < max_retry
      · have hk' : (max_retry - (n_retry + 1)).toNat = k := by omega
        have rest := ih (fun n => ra (n + 1)) target_id fn caption seconds
          (n_retry + 1) max_retry h2 hk'
        simp only [dif_pos h2]
        refine ⟨?_, ?_⟩
        · simp only [rest.1]
          omega
        · exact rest.2
      · have hk0 : k = 0 := by omega
        simp only [dif_neg h2]
        refine ⟨?_, ?_⟩
        · omega
        · trivial

/-- A continuously rate-limited `sendVideo` performs exactly
`max_retry - n_retry` remote calls and ends in `ExceedMaxRetriesError`. -/
theorem sendVideo_rate_limited_forever (k : ℕ) :
    ∀ (ra : ℕ → ℤ) (target_id : ℤ) (filename_or_url caption : String)
      (seconds : ℚ) (n_retry max_retry : ℤ),
      n_retry < max_retry → (max_retry - n_retry).toNat = k →
      (sendVideo (fun n => RemoteOutcome.retryAfter (ra n)) target_id
          filename_or_url caption seconds n_retry max_retry).attempts = k ∧
      (sendVideo (fun n => RemoteOutcome.retryAfter (ra n)) target_id
          filename_or_url caption seconds n_retry max_retry).result =
        .error (.exceedMaxRetries target_id "NA" filename_or_url max_retry) := by
  induction k with
  | zero => intro ra target_id fn caption seconds n_retry max_retry h hk; omega
  | succ k ih =>
      intro ra target_id fn caption seconds n_retry max_retry h hk
      rw [sendVideo]
      by_cases h2 : n_retry + 1 < max_retry
      · have hk' : (max_retry - (n_retry + 1)).toNat = k := by omega
        have rest := ih (fun n => ra (n + 1)) target_id fn caption seconds
          (n_retry + 1) max_retry h2 hk'
        simp only [dif_pos h2]
        refine ⟨?_, ?_⟩
        · simp only [rest.1]
          omega
        · exact rest.2
      · have hk0 : k = 0 := by omega
        simp only [dif_neg h2]
        refine ⟨?_, ?_⟩
        · omega
        · trivial

/-- A continuously rate-limited `sendDocument` performs exactly
`max_retry - n_retry` remote calls and ends in `ExceedMaxRetriesError`. -/
theorem sendDocument_rate_limited_forever (k : ℕ) :
    ∀ (ra : ℕ → ℤ) (target_id : ℤ) (filename_or_url caption : String)
      (seconds : ℚ) (n_retry max_retry : ℤ),
      n_retry < max_retry → (max_retry - n_retry).toNat = k →
      (sendDocument (fun n => RemoteOutcome.retryAfter (ra n)) target_id
          filename_or_url caption seconds n_retry max_retry).attempts = k ∧
      (sendDocument (fun n => RemoteOutcome.retryAfter (ra n)) target_id
          filename_or_url caption seconds n_retry max_retry).result =
        .error (.exceedMaxRetries target_id "NA" filename_or_url max_retry) := by
  induction k with
  | zero => intro ra target_id fn caption seconds n_retry max_retry h hk; omega
  | succ k ih =>
      intro ra target_id fn caption seconds n_retry max_retry h hk
      rw [sendDocument]
      by_cases h2 : n_retry + 1 < max_retry
      · have hk' : (max_retry - (n_retry + 1)).toNat = k := by omega
        have rest := ih (fun n => ra (n + 1)) target_id fn caption seconds
          (n_retry + 1) max_retry h2 hk'
        simp only [dif_pos h2]
        refine ⟨?_, ?_⟩
        · simp only [rest.1]
          omega
        · exact rest.2
      · have hk0 : k = 0 := by omega
        simp only [dif_neg h2]
        refine ⟨?_, ?_⟩
        · omega
        · trivial

/-- C2: for each of the four send methods, a delivery whose remote call is
rate-limited on every attempt, started with retry counter `0` and
`max_retry = k ≥ 1`, performs exactly `k` remote calls (so at most `k`), and
its `k`-th failure is the terminal `ExceedMaxRetriesError` rather than a
further retry. -/
theorem c2_retry_bound (ra : ℕ → ℤ) (target_id : ℤ) (payload caption : String)
    (captionM : Option String) (seconds : ℚ) (k : ℤ) (hk : 1 ≤ k) :
    ((sendMessage (fun n => RemoteOutcome.retryAfter (ra n)) target_id payload
        captionM seconds 0 k).attempts = k.toNat ∧
      (sendMessage (fun n => RemoteOutcome.retryAfter (ra n)) target_id payload
        captionM seconds 0 k).result =
        .error (.exceedMaxRetries target_id "NA" payload k)) ∧
    ((sendPhoto (fun n => RemoteOutcome.retryAfter (ra n)) target_id payload
        caption seconds 0 k).attempts = k.toNat ∧
      (sendPhoto (fun n => RemoteOutcome.retryAfter (ra n)) target_id payload
        caption seconds 0 k).result =
        .error (.exceedMaxRetries target_id "NA" payload k)) ∧
    ((sendVideo (fun n => RemoteOutcome.retryAfter (ra n)) target_id payload
        caption seconds 0 k).attempts = k.toNat ∧
      (sendVideo (fun n => RemoteOutcome.retryAfter (ra n)) target_id payload
        caption seconds 0 k).result =
        .error (.exceedMaxRetries target_id "NA" payload k)) ∧
    ((sendDocument (fun n => RemoteOutcome.retryAfter (ra n)) target_id payload
        caption seconds 0 k).attempts = k.toNat ∧
      (sendDocument (fun n => RemoteOutcome.retryAfter (ra n)) target_id payload
        caption seconds 0 k).result =
        .error (.exceedMaxRetries target_id "NA" payload k)) := by
  have h0 : (0 : ℤ) < k := hk
  have hkn : (k - 0).toNat = k.toNat := by omega
  exact ⟨sendMessage_rate_limited_forever k.toNat ra target_id payload captionM
      seconds 0 k h0 hkn,
    sendPhoto_rate_limited_forever k.toNat ra target_id payload caption
      seconds 0 k h0 hkn,
    sendVideo_rate_limited_forever k.toNat ra target_id payload caption
      seconds 0 k h0 hkn,
    sendDocument_rate_limited_forever k.toNat ra target_id payload caption
      seconds 0 k h0 hkn⟩

/-- Concrete check of C2: `max_retry = 2`, every attempt rate-limited with
`retry_after = 30`: two attempts, terminal `ExceedMaxRetriesError`. -/
theorem c2_retry_bound_witness :
    (1 : ℤ) ≤ 2 ∧
    ((sendMessage (fun n => RemoteOutcome.retryAfter ((fun _ => 30) n)) 7 "p"
        none (0 : ℚ) 0 2).attempts = (2 : ℤ).toNat ∧
      (sendMessage (fun n => RemoteOutcome.retryAfter ((fun _ => 30) n)) 7 "p"
        none (0 : ℚ) 0 2).result = .error (.exceedMaxRetries 7 "NA" "p" 2)) := by
  exact ⟨by decide,
    (c2_retry_bound (fun _ => 30) 7 "p" "c" none 0 2 (by decide)).1⟩

/-- C5 [code bug]: with `minIntervalSeconds = 5` and a first-attempt success
whose remote call takes `1` second, `sendMessage`, `sendPhoto` and
`sendVideo` sleep the remaining `4` seconds (total wall time `5`), but
`sendDocument` sleeps `asyncio.sleep(seconds < sent_time)` — the boolean
`False`, i.e. `0` seconds — so its wall time is `1 < 5`, contradicting both
the claimed pacing floor and `sendDocument`'s own docstring. -/
theorem c5_document_pacing_divergence :
    (sendMessage (fun _ => RemoteOutcome.success ⟨7, ["lo", "hi"], "d", "v"⟩ 1)
        9 "m" none 5 0 5).wall = 5 ∧
    (sendPhoto (fun _ => RemoteOutcome.success ⟨7, ["lo", "hi"], "d", "v"⟩ 1)
        9 "p" "" 5 0 5).wall = 5 ∧
    (sendVideo (fun _ => RemoteOutcome.success ⟨7, ["lo", "hi"], "d", "v"⟩ 1)
        9 "v" "" 5 0 5).wall = 5 ∧
    (sendDocument (fun _ => RemoteOutcome.success ⟨7, ["lo", "hi"], "d", "v"⟩ 1)
        9 "d" "" 5 0 5).sleeps = [0] ∧
    (sendDocument (fun _ => RemoteOutcome.success ⟨7, ["lo", "hi"], "d", "v"⟩ 1)
        9 "d" "" 5 0 5).wall = 1 ∧
    (1 : ℚ) < 5 := by
  rw [sendMessage, sendPhoto, sendVideo, sendDocument]
  norm_num [SendTrace.wall, pyFloatOfBool]

/-- C9: each recognized strategy / method identifier maps to exactly one
implementation, and any value that is not a recognized enumeration member
makes the selection function raise `ValueError` (the configuration error)
instead of silently defaulting. -/
theorem c9_selection_total_and_strict :
    select_broadcast_strategy (.member .ASYNCIO_SEQUENTIAL) = .ok .asyncSequential ∧
    select_broadcast_strategy (.member .ASYNCIO_MULTIPROCESSING_POOL) =
      .ok .asyncMultiProcessingPool ∧
    select_broadcast_strategy (.member .ASYNCIO_PROCESS_POOL) = .ok .asyncProcessPool ∧
    select_broadcast_strategy .other =
      .error (.valueError "Invalid broadcast strategy") ∧
    select_broadcast_method (.member .TEXT) = .ok .sendMessageFn ∧
    select_broadcast_method (.member .PHOTO) = .ok .sendPhotoFn ∧
    select_broadcast_method (.member .DOCUMENT) = .ok .sendDocumentFn ∧
    select_broadcast_method (.member .VIDEO) = .ok .sendVideoFn ∧
    select_broadcast_method .other = .error (.valueError "Invalid dtype") :=
  ⟨rfl, rfl, rfl, rfl, rfl, rfl, rfl, rfl, rfl⟩

/-- C10: the exported string-to-enum conversions return the member for every
member name and raise `KeyError` — not `ValueError` — for anything else, so
the exception passes the `except ValueError: raise` handler untouched and
escapes to the caller. -/
theorem c10_string_to_enum_keyerror (s : String) :
    string_to_BroadcastStrategyType s =
      (match BroadcastStrategyType.fromName s with
        | some v => Except.ok v
        | none => Except.error (PyExc.keyError s)) ∧
    string_to_BroadcastMethodType s =
      (match BroadcastMethodType.fromName s with
        | some v => Except.ok v
        | none => Except.error (PyExc.keyError s)) ∧
    (PyExc.keyError s).isValueError = false ∧
    BroadcastStrategyType.fromName "ASYNCIO_SEQUENTIAL" =
      some .ASYNCIO_SEQUENTIAL ∧
    BroadcastStrategyType.fromName "ASYNCIO_MULTIPROCESSING_POOL" =
      some .ASYNCIO_MULTIPROCESSING_POOL ∧
    BroadcastStrategyType.fromName "ASYNCIO_PROCESS_POOL" =
      some .ASYNCIO_PROCESS_POOL ∧
    BroadcastMethodType.fromName "TEXT" = some .TEXT ∧
    BroadcastMethodType.fromName "PHOTO" = some .PHOTO ∧
    BroadcastMethodType.fromName "DOCUMENT" = some .DOCUMENT ∧
    BroadcastMethodType.fromName "VIDEO" = some .VIDEO := by
  refine ⟨?_, ?_, rfl, rfl, rfl, rfl, rfl, rfl, rfl, rfl⟩
  · unfold string_to_BroadcastStrategyType pyTryExcept BroadcastStrategyType.getitem
    cases h : BroadcastStrategyType.fromName s <;> simp [PyExc.isValueError]
  · unfold string_to_BroadcastMethodType pyTryExcept BroadcastMethodType.getitem
    cases h : BroadcastMethodType.fromName s <;> simp [PyExc.isValueError]

theorem recipientsOf_nil : recipientsOf [] = [] := rfl

theorem recipientsOf_cons (jr : JobResponse) (l : List JobResponse) :
    recipientsOf (jr :: l) = (jr.telegram_id, jr.username) :: recipientsOf l := rfl

theorem recipientsOf_append (a b : List JobResponse) :
    recipientsOf (a ++ b) = recipientsOf a ++ recipientsOf b :=
  List.map_append _ _ _

/-- Mapping a function of the first components over a (truncating) zip whose
left list is not longer than its right list. -/
theorem map_fst_comp_zip {α β γ : Type} (g : α → γ) :
    ∀ (A : List α) (B : List β), A.length ≤ B.length →
      ((A.zip B).map (fun t => g t.1)) = A.map g
  | [], _, _ => by simp
  | a :: A, [], h => by simp at h
  | a :: A, b :: B, h => by
      simp only [List.zip_cons_cons, List.map_cons, List.cons.injEq, true_and]
      exact map_fst_comp_zip g A B (by simpa using h)

/-- Mapping a function of the second components over a (truncating) zip whose
right list is not longer than its left list. -/
theorem map_snd_comp_zip {α β γ : Type} (g : β → γ) :
    ∀ (A : List α) (B : List β), B.length ≤ A.length →
      ((A.zip B).map (fun t => g t.2)) = B.map g
  | _, [], _ => by simp
  | [], b :: B, h => by simp at h
  | a :: A, b :: B, h => by
      simp only [List.zip_cons_cons, List.map_cons, List.cons.injEq, true_and]
      exact map_snd_comp_zip g A B (by simpa using h)

/-- The first components of a (truncating) zip form an order-preserving
subsequence of the left list. -/
theorem map_fst_zip_sublist {α β : Type} :
    ∀ (A : List α) (B : List β), ((A.zip B).map (fun t => t.1)).Sublist A
  | [], _ => by simp
  | a :: A, [] => by simp
  | a :: A, b :: B => by
      simp only [List.zip_cons_cons, List.map_cons]
      exact List.Sublist.cons₂ a (map_fst_zip_sublist A B)

/-- With a non-raising callback, one sequential iteration produces exactly
one entry, for that iteration's recipient. -/
theorem seqIter_recipients (telegram_id : ℤ) (username _payload : String)
    (outcome : CallOutcome) (cb : Option (ℤ → Except PyExc Unit))
    (hcb : callbackNeverRaises cb) :
    recipientsOf (seqIter telegram_id username _payload outcome cb) =
      [(telegram_id, username)] := by
  unfold seqIter seqTryBody
  cases outcome with
  | exc e => simp [recipientsOf_cons, recipientsOf_nil, errorEntry]
  | ok a =>
      cases hc : cb with
      | none => simp [recipientsOf_cons, recipientsOf_nil]
      | some f =>
          have hok := hcb f hc telegram_id
          cases hf : f telegram_id with
          | ok u => simp [hf, recipientsOf_cons, recipientsOf_nil]
          | error e => rw [hf] at hok; simp [Except.isOk, Except.toBool] at hok

/-- With a non-raising callback, the sequential loop produces exactly one
entry per row, recipients in row order. -/
theorem seqLoop_recipients (method : ℕ → CallOutcome)
    (cb : Option (ℤ → Except PyExc Unit)) (hcb : callbackNeverRaises cb) :
    ∀ (rows : List ((ℤ × String) × String × String)) (i : ℕ),
      recipientsOf (seqLoop rows i method cb) = rows.map (fun r => r.1) := by
  intro rows
  induction rows with
  | nil => intro i; rfl
  | cons row rest ih =>
      intro i
      obtain ⟨⟨tid, uname⟩, pl, cap⟩ := row
      simp only [seqLoop, recipientsOf_append, ih (i + 1), List.map_cons,
        seqIter_recipients tid uname pl (method i) cb hcb]
      rfl

/-- The non-failure entries of one sequential iteration carry that
iteration's recipient (there is at most one such entry). -/
theorem seqIter_filter_sent_sublist (telegram_id : ℤ) (username _payload : String)
    (outcome : CallOutcome) (cb : Option (ℤ → Except PyExc Unit)) :
    (recipientsOf ((seqIter telegram_id username _payload outcome cb).filter
        (fun jr => !is_error_information jr.result))).Sublist
      [(telegram_id, username)] := by
  unfold seqIter seqTryBody
  cases outcome with
  | exc e =>
      simp [errorEntry, errorInformationOf, is_error_information,
        recipientsOf_nil]
  | ok a =>
      cases cb with
      | none => simp [is_error_information, recipientsOf_cons, recipientsOf_nil]
      | some f =>
          cases hf : f telegram_id with
          | ok u => simp [hf, is_error_information, recipientsOf_cons, recipientsOf_nil]
          | error e =>
              simp [hf, is_error_information, errorEntry, errorInformationOf,
                recipientsOf_cons, recipientsOf_nil]

/-- The failure entries of one sequential iteration carry that iteration's
recipient (there is at most one such entry). -/
theorem seqIter_filter_failed_sublist (telegram_id : ℤ) (username _payload : String)
    (outcome : CallOutcome) (cb : Option (ℤ → Except PyExc Unit)) :
    (recipientsOf ((seqIter telegram_id username _payload outcome cb).filter
        (fun jr => is_error_information jr.result))).Sublist
      [(telegram_id, username)] := by
  unfold seqIter seqTryBody
  cases outcome with
  | exc e =>
      simp [errorEntry, errorInformationOf, is_error_information,
        recipientsOf_cons, recipientsOf_nil]
  | ok a =>
      cases cb with
      | none => simp [is_error_information, recipientsOf_nil]
      | some f =>
          cases hf : f telegram_id with
          | ok u => simp [hf, is_error_information, recipientsOf_nil]
          | error e =>
              simp [hf, is_error_information, errorEntry, errorInformationOf,
                recipientsOf_cons, recipientsOf_nil]

/-- Filtering the sequential loop's raw result list by any per-iteration
at-most-one predicate yields recipients forming a subsequence of the row
recipients, in order. -/
theorem seqLoop_filter_sublist (method : ℕ → CallOutcome)
    (cb : Option (ℤ → Except PyExc Unit)) (p : JobResponse → Bool)
    (hp : ∀ telegram_id username _payload outcome,
      (recipientsOf ((seqIter telegram_id username _payload outcome cb).filter
          p)).Sublist [(telegram_id, username)]) :
    ∀ (rows : List ((ℤ × String) × String × String)) (i : ℕ),
      (recipientsOf ((seqLoop rows i method cb).filter p)).Sublist
        (rows.map (fun r => r.1)) := by
  intro rows
  induction rows with
  | nil => intro i; simp [seqLoop, recipientsOf_nil]
  | cons row rest ih =>
      intro i
      obtain ⟨⟨tid, uname⟩, pl, cap⟩ := row
      simp only [seqLoop, List.filter_append, recipientsOf_append, List.map_cons]
      rw [← List.singleton_append]
      exact List.Sublist.append (hp tid uname pl (method i)) (ih (i + 1))

/-- C8: the Sequential strategy processes recipients in input order and its
two output lists each list their recipients in the same relative order as
the input subscriber list (each is an order-preserving subsequence of it). -/
theorem c8_sequential_preserves_order (subscribers : List (ℤ × String))
    (content caption : StrOrList) (method : ℕ → CallOutcome)
    (cb : Option (ℤ → Except PyExc Unit)) :
    (recipientsOf
        (AsyncSequential.execute subscribers content caption method cb).1).Sublist
      subscribers ∧
    (recipientsOf
        (AsyncSequential.execute subscribers content caption method cb).2).Sublist
      subscribers := by
  simp only [AsyncSequential.execute, separate_result_list_eq_filter]
  constructor
  · refine List.Sublist.trans
      (seqLoop_filter_sublist method cb _
        (fun tid uname pl outcome => seqIter_filter_sent_sublist tid uname pl outcome cb)
        _ 0) ?_
    exact map_fst_zip_sublist subscribers _
  · refine List.Sublist.trans
      (seqLoop_filter_sublist method cb _
        (fun tid uname pl outcome => seqIter_filter_failed_sublist tid uname pl outcome cb)
        _ 0) ?_
    exact map_fst_zip_sublist subscribers _

/-- When no submission raises, the process-pool submission loop queues no
failure entry and yields one future per row, in row order. -/
theorem poolSubmit_all_ok (submit : ℕ → Option PyExc)
    (hsub : ∀ i, submit i = none) :
    ∀ (rows : List ((ℤ × String) × String × String)) (i : ℕ),
      poolSubmit rows i submit = ([], List.range' i rows.length) := by
  intro rows
  induction rows with
  | nil => intro i; rfl
  | cons row rest ih =>
      intro i
      obtain ⟨⟨tid, uname⟩, pl, cap⟩ := row
      simp [poolSubmit, hsub i, ih (i + 1), List.range']

/-- With a non-raising callback, the process-pool collection loop produces
exactly one entry per zipped triple, attributed to the triple's subscriber,
in order. -/
theorem poolCollect_recipients (contentList : List String)
    (cb : Option (ℤ → Except PyExc Unit)) (methodRun : ℕ → Except PyExc Artifact)
    (hcb : callbackNeverRaises cb) :
    ∀ triples : List (ℕ × (ℤ × String) × String),
      recipientsOf (poolCollect contentList cb methodRun triples) =
        triples.map (fun t => t.2.1) := by
  intro triples
  induction triples with
  | nil => rfl
  | cons t rest ih =>
      obtain ⟨fi, ⟨tid, uname⟩, pl⟩ := t
      cases hr : methodRun fi with
      | error e =>
          simp [poolCollect, hr, broadcast_method_wrapper, is_error_information,
            recipientsOf_cons, recipientsOf_append, ih]
      | ok a =>
          cases hc : cb with
          | none =>
              rw [hc] at ih
              simp [poolCollect, hr, hc, broadcast_method_wrapper,
                is_error_information, recipientsOf_cons, recipientsOf_append, ih]
          | some f =>
              have hok := hcb f hc tid
              rw [hc] at ih
              cases hf : f tid with
              | ok u =>
                  simp [poolCollect, hr, hc, hf, broadcast_method_wrapper,
                    is_error_information, recipientsOf_cons, recipientsOf_append, ih]
              | error e =>
                  rw [hf] at hok
                  simp [Except.isOk, Except.toBool] at hok

/-- With a non-raising callback, the multiprocessing-pool collection loop
produces exactly one entry per zipped pair, attributed to the pair's
subscriber, in order. -/
theorem mpCollect_recipients (cb : Option (ℤ → Except PyExc Unit))
    (methodRun : ℕ → Except PyExc Artifact) (hcb : callbackNeverRaises cb) :
    ∀ pairs : List ((ℕ × ℤ × String) × String),
      recipientsOf (mpCollect cb methodRun pairs) =
        pairs.map (fun p => (p.1.2.1, p.1.2.2)) := by
  intro pairs
  induction pairs with
  | nil => rfl
  | cons t rest ih =>
      obtain ⟨⟨i, tid, uname⟩, pl⟩ := t
      cases hr : methodRun i with
      | error e =>
          simp [mpCollect, hr, broadcast_method_wrapper, is_error_information,
            recipientsOf_cons, recipientsOf_append, ih]
      | ok a =>
          cases hc : cb with
          | none =>
              rw [hc] at ih
              simp [mpCollect, hr, hc, broadcast_method_wrapper,
                is_error_information, recipientsOf_cons, recipientsOf_append, ih]
          | some f =>
              have hok := hcb f hc tid
              rw [hc] at ih
              cases hf : f tid with
              | ok u =>
                  simp [mpCollect, hr, hc, hf, broadcast_method_wrapper,
                    is_error_information, recipientsOf_cons, recipientsOf_append, ih]
              | error e =>
                  rw [hf] at hok
                  simp [Except.isOk, Except.toBool] at hok

/-- The two outputs of any strategy, concatenated, are a permutation of the
raw result collection it separated. -/
theorem separate_append_perm (l : List JobResponse) :
    ((separate_result_list l).1 ++ (separate_result_list l).2).Perm l :=
  List.perm_append_comm.trans (separate_result_list_perm l)

/-- The first components of a (truncating) zip equal the left list when it
is not longer than the right list. -/
theorem map_fst_zip_eq {α β : Type} :
    ∀ (A : List α) (B : List β), A.length ≤ B.length →
      ((A.zip B).map (fun t => t.1)) = A
  | [], _, _ => by simp
  | a :: A, [], h => by simp at h
  | a :: A, b :: B, h => by
      simp only [List.zip_cons_cons, List.map_cons, List.cons.injEq, true_and]
      exact map_fst_zip_eq A B (by simpa using h)

/-- C1 is refuted by the source on two concrete runs.  First: Sequential
with one subscriber whose delivery succeeds but whose success callback
raises — the success entry is already appended when the `except` clause
appends a failure entry, so the recipient appears twice in the combined
output.  Second: the process-pool strategy with two subscribers where the
first submission raises — the collection loop zips the (shorter) futures
list against the subscriber list from its start, so subscriber 1 receives
both its submission-failure entry and the result computed for subscriber 2,
while subscriber 2 appears zero times. -/
theorem c1_exactly_once_counterexample :
    (recipientsOf
        ((AsyncSequential.execute [(1, "alice")] (.str "hi") (.str "")
            (fun _ => CallOutcome.ok (.photoSize "f"))
            (some (fun _ => Except.error (PyExc.generic "RuntimeError" "boom")))).1 ++
          (AsyncSequential.execute [(1, "alice")] (.str "hi") (.str "")
            (fun _ => CallOutcome.ok (.photoSize "f"))
            (some (fun _ => Except.error (PyExc.generic "RuntimeError" "boom")))).2)).count
        (1, "alice") = 2 ∧
    (recipientsOf
        ((AsyncProcessPool.execute [(1, "a"), (2, "b")] (.str "c") (.str "")
            (fun _ => Except.ok (Artifact.photoSize "f"))
            (fun i => if i = 0 then some (PyExc.generic "BrokenProcessPool" "x") else none)
            none).1 ++
          (AsyncProcessPool.execute [(1, "a"), (2, "b")] (.str "c") (.str "")
            (fun _ => Except.ok (Artifact.photoSize "f"))
            (fun i => if i = 0 then some (PyExc.generic "BrokenProcessPool" "x") else none)
            none).2)).count (1, "a") = 2 ∧
    (recipientsOf
        ((AsyncProcessPool.execute [(1, "a"), (2, "b")] (.str "c") (.str "")
            (fun _ => Except.ok (Artifact.photoSize "f"))
            (fun i => if i = 0 then some (PyExc.generic "BrokenProcessPool" "x") else none)
            none).1 ++
          (AsyncProcessPool.execute [(1, "a"), (2, "b")] (.str "c") (.str "")
            (fun _ => Except.ok (Artifact.photoSize "f"))
            (fun i => if i = 0 then some (PyExc.generic "BrokenProcessPool" "x") else none)
            none).2)).count (2, "b") = 0 := by
  decide

/-- C1 as amended: provided the success callback never raises, no submission
raises, and the content and caption lists are parallel to the subscriber
list, every input recipient appears exactly once (as a multiset) in the
combined succeeded/failed output of each of the three strategies. -/
theorem c1_exactly_once_amended (subscribers : List (ℤ × String))
    (content caption : StrOrList) (method : ℕ → CallOutcome)
    (methodRun : ℕ → Except PyExc Artifact) (submit : ℕ → Option PyExc)
    (cb : Option (ℤ → Except PyExc Unit))
    (hcb : callbackNeverRaises cb)
    (hc : (toParallel content subscribers.length).length = subscribers.length)
    (hcap : (toParallel caption subscribers.length).length = subscribers.length)
    (hsub : ∀ i, submit i = none) :
    (recipientsOf
        ((AsyncSequential.execute subscribers content caption method cb).1 ++
          (AsyncSequential.execute subscribers content caption method cb).2)).Perm
      subscribers ∧
    (recipientsOf
        ((AsyncProcessPool.execute subscribers content caption methodRun submit cb).1 ++
          (AsyncProcessPool.execute subscribers content caption methodRun submit cb).2)).Perm
      subscribers ∧
    (recipientsOf
        ((AsyncMultiProcessingPool.execute subscribers content caption methodRun cb).1 ++
          (AsyncMultiProcessingPool.execute subscribers content caption methodRun cb).2)).Perm
      subscribers := by
  have hzip : ((toParallel content subscribers.length).zip
      (toParallel caption subscribers.length)).length = subscribers.length := by
    rw [List.length_zip, hc, hcap, min_self]
  have hrows : (subscribers.zip ((toParallel content subscribers.length).zip
      (toParallel caption subscribers.length))).length = subscribers.length := by
    rw [List.length_zip, hzip, min_self]
  refine ⟨?_, ?_, ?_⟩
  · simp only [AsyncSequential.execute]
    refine ((separate_append_perm _).map _).trans ?_
    have h := seqLoop_recipients method cb hcb
      (subscribers.zip ((toParallel content subscribers.length).zip
        (toParallel caption subscribers.length))) 0
    simp only [recipientsOf] at h
    rw [h, map_fst_zip_eq _ _ (le_of_eq hzip.symm)]
  · simp only [AsyncProcessPool.execute,
      poolSubmit_all_ok submit hsub _ 0, List.nil_append,
      separate_result_queue_eq_list]
    refine ((separate_append_perm _).map _).trans ?_
    have h := poolCollect_recipients (toParallel content subscribers.length) cb
      methodRun hcb
      ((List.range' 0 (subscribers.zip ((toParallel content
          subscribers.length).zip (toParallel caption subscribers.length))).length).zip
        (subscribers.zip (toParallel content subscribers.length)))
    simp only [recipientsOf] at h
    rw [h]
    have h1 : ((List.range' 0 (subscribers.zip ((toParallel content
          subscribers.length).zip (toParallel caption subscribers.length))).length).zip
            (subscribers.zip (toParallel content subscribers.length))).map
          (fun t => t.2.1) =
        (subscribers.zip (toParallel content subscribers.length)).map
          (fun q => q.1) := by
      refine map_snd_comp_zip (fun q : (ℤ × String) × String => q.1) _ _ ?_
      rw [List.length_range', List.length_zip, hc, min_self, hrows]
    rw [h1, map_fst_zip_eq _ _ (le_of_eq hc.symm)]
  · simp only [AsyncMultiProcessingPool.execute, separate_result_queue_eq_list]
    refine ((separate_append_perm _).map _).trans ?_
    have h := mpCollect_recipients cb methodRun hcb
      (((subscribers.zip ((toParallel content subscribers.length).zip
          (toParallel caption subscribers.length))).enum.map
            (fun p => (p.1, p.2.1.1, p.2.1.2))).zip
        (toParallel content subscribers.length))
    simp only [recipientsOf] at h
    rw [h]
    have h1 : (((subscribers.zip ((toParallel content subscribers.length).zip
            (toParallel caption subscribers.length))).enum.map
              (fun p => (p.1, p.2.1.1, p.2.1.2))).zip
            (toParallel content subscribers.length)).map
          (fun p => (p.1.2.1, p.1.2.2)) =
        ((subscribers.zip ((toParallel content subscribers.length).zip
            (toParallel caption subscribers.length))).enum.map
              (fun p => (p.1, p.2.1.1, p.2.1.2))).map
          (fun r => (r.2.1, r.2.2)) := by
      refine map_fst_comp_zip (fun r : ℕ × ℤ × String => (r.2.1, r.2.2)) _ _ ?_
      rw [List.length_map, List.enum_length, hrows, hc]
    rw [h1, List.map_map]
    have h2 : ((subscribers.zip ((toParallel content subscribers.length).zip
          (toParallel caption subscribers.length))).enum.map
            ((fun r : ℕ × ℤ × String => (r.2.1, r.2.2)) ∘
              (fun p => (p.1, p.2.1.1, p.2.1.2)))) =
        ((subscribers.zip ((toParallel content subscribers.length).zip
          (toParallel caption subscribers.length))).enum.map
            ((fun row : (ℤ × String) × String × String => row.1) ∘ Prod.snd)) := rfl
    rw [h2, ← List.map_map, List.enum_map_snd, map_fst_zip_eq _ _ (le_of_eq hzip.symm)]

/-- Concrete check of the amended C1: two subscribers, every delivery
succeeds, no callback, no submission failure — each strategy's combined
output recipients are a permutation of the input. -/
theorem c1_exactly_once_amended_witness :
    (recipientsOf
        ((AsyncSequential.execute [(1, "a"), (2, "b")] (.str "hi") (.str "")
            allOkEnv.method allOkEnv.success_callback).1 ++
          (AsyncSequential.execute [(1, "a"), (2, "b")] (.str "hi") (.str "")
            allOkEnv.method allOkEnv.success_callback).2)).Perm
      [(1, "a"), (2, "b")] :=
  (c1_exactly_once_amended [(1, "a"), (2, "b")] (.str "hi") (.str "")
    allOkEnv.method allOkEnv.methodRun allOkEnv.submit allOkEnv.success_callback
    (fun _ h => Option.noConfusion h) (by decide) (by decide)
    (fun _ => rfl)).1

/-- C3 is refuted by the source: with 3 recipients and a parallel payload
list of length 2 the engine raises nothing — it returns `ok` and the
sequential loop's `zip` silently dispatches deliveries for the first two
recipients, dropping the third (its recipient count in the output is `0`). -/
theorem c3_no_length_validation_counterexample :
    handle_broadcast [(1, "a"), (2, "b"), (3, "c")] (.member .TEXT)
        (.member .ASYNCIO_SEQUENTIAL) (.list ["p1", "p2"]) (.str "") allOkEnv =
      .ok ([⟨1, "a", .str "p1", .artifact (.photoSize "file")⟩,
            ⟨2, "b", .str "p2", .artifact (.photoSize "file")⟩], []) ∧
    (recipientsOf
        ([⟨1, "a", .str "p1", .artifact (.photoSize "file")⟩,
          ⟨2, "b", .str "p2", .artifact (.photoSize "file")⟩] ++
          ([] : List JobResponse))).count (3, "c") = 0 := by
  constructor
  · rfl
  · decide

/-- C3 as amended: the engine performs no payload-length validation at all.
A parallel payload (or caption) list of mismatched length raises no error:
`handle_broadcast` returns `ok`, and `zip` truncation silently limits
dispatch to the first `min(|recipients|, |payloads|, |captions|)` recipients
and drops the rest. -/
theorem c3_zip_truncation_amended (subscribers : List (ℤ × String))
    (contentL captionL : List String) (env : ExecEnv)
    (hcb : callbackNeverRaises env.success_callback) :
    handle_broadcast subscribers (.member .TEXT) (.member .ASYNCIO_SEQUENTIAL)
        (.list contentL) (.list captionL) env =
      .ok (AsyncSequential.execute subscribers (.list contentL) (.list captionL)
        env.method env.success_callback) ∧
    (AsyncSequential.execute subscribers (.list contentL) (.list captionL)
          env.method env.success_callback).1.length +
        (AsyncSequential.execute subscribers (.list contentL) (.list captionL)
          env.method env.success_callback).2.length =
      min subscribers.length (min contentL.length captionL.length) := by
  constructor
  · rfl
  · have hrec := seqLoop_recipients env.method env.success_callback hcb
      (subscribers.zip (contentL.zip captionL)) 0
    have hraw : (seqLoop (subscribers.zip (contentL.zip captionL)) 0 env.method
        env.success_callback).length =
        (subscribers.zip (contentL.zip captionL)).length := by
      have hlen := congrArg List.length hrec
      simpa [recipientsOf] using hlen
    have hperm := (separate_append_perm (seqLoop
      (subscribers.zip (contentL.zip captionL)) 0 env.method
      env.success_callback)).length_eq
    simp only [AsyncSequential.execute, toParallel]
    rw [← List.length_append, hperm, hraw, List.length_zip, List.length_zip]

/-- Concrete check of the amended C3: 3 recipients, 2 payloads, 3 captions —
no error, and 2 = min(3, min(2, 3)) deliveries dispatched. -/
theorem c3_zip_truncation_amended_witness :
    handle_broadcast [(1, "a"), (2, "b"), (3, "c")] (.member .TEXT)
        (.member .ASYNCIO_SEQUENTIAL) (.list ["p1", "p2"]) (.list ["", "", ""])
        allOkEnv =
      .ok (AsyncSequential.execute [(1, "a"), (2, "b"), (3, "c")]
        (.list ["p1", "p2"]) (.list ["", "", ""]) allOkEnv.method
        allOkEnv.success_callback) ∧
    (AsyncSequential.execute [(1, "a"), (2, "b"), (3, "c")] (.list ["p1", "p2"])
          (.list ["", "", ""]) allOkEnv.method allOkEnv.success_callback).1.length +
        (AsyncSequential.execute [(1, "a"), (2, "b"), (3, "c")] (.list ["p1", "p2"])
          (.list ["", "", ""]) allOkEnv.method allOkEnv.success_callback).2.length =
      min [(1, "a"), (2, "b"), (3, "c")].length
        (min ["p1", "p2"].length ["", "", ""].length) :=
  c3_zip_truncation_amended [(1, "a"), (2, "b"), (3, "c")] ["p1", "p2"]
    ["", "", ""] allOkEnv (fun _ h => Option.noConfusion h)

/-- The sequential loop with its exception channel explicit always returns
`ok` of what the plain loop computes: the catch-all handler consumes every
per-recipient exception. -/
theorem seqLoopE_eq_ok (method : ℕ → CallOutcome)
    (cb : Option (ℤ → Except PyExc Unit)) :
    ∀ (rows : List ((ℤ × String) × String × String)) (i : ℕ)
      (acc : List JobResponse),
      seqLoopE rows i method cb acc = .ok (acc ++ seqLoop rows i method cb) := by
  intro rows
  induction rows with
  | nil => intro i acc; simp [seqLoopE, seqLoop]
  | cons row rest ih =>
      intro i acc
      obtain ⟨⟨tid, uname⟩, pl, cap⟩ := row
      rcases hb : seqTryBody tid uname pl (method i) cb with ⟨entries, exc⟩
      cases exc with
      | none => simp [seqLoopE, seqLoop, seqIter, hb, ih, List.append_assoc]
      | some e => simp [seqLoopE, seqLoop, seqIter, hb, ih, List.append_assoc]

/-- A delivery exception at loop position `j` contributes the corresponding
`ErrorInformation` entry to the sequential loop's raw result list. -/
theorem seqLoop_exc_mem (method : ℕ → CallOutcome)
    (cb : Option (ℤ → Except PyExc Unit)) :
    ∀ (rows : List ((ℤ × String) × String × String)) (i0 j : ℕ)
      (hj : j < rows.length) (e : PyExc), method (i0 + j) = .exc e →
      errorEntry (rows.get ⟨j, hj⟩).1.1 (rows.get ⟨j, hj⟩).1.2
          (.str (rows.get ⟨j, hj⟩).2.1) e ∈ seqLoop rows i0 method cb := by
  intro rows
  induction rows with
  | nil => intro i0 j hj; simp at hj
  | cons row rest ih =>
      intro i0 j hj e hmi
      cases j with
      | zero =>
          obtain ⟨⟨tid, uname⟩, pl, cap⟩ := row
          simp only [Nat.add_zero] at hmi
          simp [seqLoop, seqIter, seqTryBody, hmi, List.get]
      | succ j =>
          have hj' : j < rest.length := by simpa using hj
          have hmi' : method (i0 + 1 + j) = .exc e := by
            rw [show i0 + 1 + j = i0 + (j + 1) from by omega]; exact hmi
          have hmem := ih (i0 + 1) j hj' e hmi'
          simp only [seqLoop, List.get]
          exact List.mem_append_right _ hmem

/-- The Sequential strategy's execute, run with its exception channel
explicit, returns `ok` of a `(succeeded, failed)` pair for every combination
of per-recipient outcomes and callback behaviour; every succeeded entry
holds a success artifact, every failed entry holds an
`ErrorInformation`-shaped failure, every per-recipient delivery exception is
folded into the failed list as such an entry, and the worker-side wrapper
converts every raised exception into `ErrorInformation`. -/
theorem asyncSequential_executeE_ok_and_folds (subscribers : List (ℤ × String))
    (content caption : StrOrList) (method : ℕ → CallOutcome)
    (cb : Option (ℤ → Except PyExc Unit)) :
    AsyncSequential.executeE subscribers content caption method cb =
      .ok (AsyncSequential.execute subscribers content caption method cb) ∧
    (∀ jr ∈ (AsyncSequential.execute subscribers content caption method cb).1,
      ∃ a, jr.result = .artifact a) ∧
    (∀ jr ∈ (AsyncSequential.execute subscribers content caption method cb).2,
      ∃ e, jr.result = .errorInfo e) ∧
    (∀ e, broadcast_method_wrapper (.error e) = .errorInfo (errorInformationOf e)) ∧
    (∀ (j : ℕ)
      (hj : j < (subscribers.zip ((toParallel content subscribers.length).zip
        (toParallel caption subscribers.length))).length) (e : PyExc),
      method j = .exc e →
      errorEntry
          ((subscribers.zip ((toParallel content subscribers.length).zip
            (toParallel caption subscribers.length))).get ⟨j, hj⟩).1.1
          ((subscribers.zip ((toParallel content subscribers.length).zip
            (toParallel caption subscribers.length))).get ⟨j, hj⟩).1.2
          (.str ((subscribers.zip ((toParallel content subscribers.length).zip
            (toParallel caption subscribers.length))).get ⟨j, hj⟩).2.1) e ∈
        (AsyncSequential.execute subscribers content caption method cb).2) := by
  refine ⟨?_, ?_, ?_, fun e => rfl, ?_⟩
  · simp only [AsyncSequential.executeE, AsyncSequential.execute,
      seqLoopE_eq_ok method cb _ 0 [], List.nil_append]
  · intro jr hm
    simp only [AsyncSequential.execute, separate_result_list_eq_filter] at hm
    have hmf := List.of_mem_filter hm
    cases hres : jr.result with
    | artifact a => exact ⟨a, rfl⟩
    | errorInfo e => rw [hres] at hmf; simp [is_error_information] at hmf
  · intro jr hm
    simp only [AsyncSequential.execute, separate_result_list_eq_filter] at hm
    have hmf := List.of_mem_filter hm
    cases hres : jr.result with
    | errorInfo e => exact ⟨e, rfl⟩
    | artifact a => rw [hres] at hmf; simp [is_error_information] at hmf
  · intro j hj e hme
    simp only [AsyncSequential.execute, separate_result_list_eq_filter]
    refine List.mem_filter.mpr ⟨?_, by simp [errorEntry, is_error_information]⟩
    have hmem := seqLoop_exc_mem method cb _ 0 j hj e (by simpa using hme)
    exact hmem

/-- Every entry of a separated failed list holds an `ErrorInformation`. -/
theorem separate_failed_errorInfo (l : List JobResponse) :
    ∀ jr ∈ (separate_result_list l).2, ∃ e, jr.result = .errorInfo e := by
  intro jr hm
  rw [separate_result_list_eq_filter] at hm
  have hmf := List.of_mem_filter hm
  cases hres : jr.result with
  | errorInfo e => exact ⟨e, rfl⟩
  | artifact a => rw [hres] at hmf; simp [is_error_information] at hmf

/-- The process-pool submission loop never lets an exception escape: its
explicit-channel form returns `ok` of the plain form, for every
submission-failure pattern. -/
theorem poolSubmitE_eq_ok (submit : ℕ → Option PyExc) :
    ∀ (rows : List ((ℤ × String) × String × String)) (i : ℕ),
      poolSubmitE rows i submit = .ok (poolSubmit rows i submit) := by
  intro rows
  induction rows with
  | nil => intro i; rfl
  | cons row rest ih =>
      intro i
      obtain ⟨⟨tid, uname⟩, pl, cap⟩ := row
      cases hs : submit i <;> simp [poolSubmitE, poolSubmit, hs, ih (i + 1)]

/-- The process-pool collection loop never lets an exception escape: its
explicit-channel form returns `ok` of the plain form. -/
theorem poolCollectE_eq_ok (contentList : List String)
    (cb : Option (ℤ → Except PyExc Unit))
    (methodRun : ℕ → Except PyExc Artifact) :
    ∀ triples : List (ℕ × (ℤ × String) × String),
      poolCollectE contentList cb methodRun triples =
        .ok (poolCollect contentList cb methodRun triples) := by
  intro triples
  induction triples with
  | nil => rfl
  | cons t rest ih =>
      obtain ⟨fi, ⟨tid, uname⟩, pl⟩ := t
      cases hw : is_error_information (broadcast_method_wrapper (methodRun fi)) with
      | true => simp [poolCollectE, poolCollect, poolTryBody, hw, ih]
      | false =>
          cases cb with
          | none => simp [poolCollectE, poolCollect, poolTryBody, hw, ih]
          | some f =>
              cases hf : f tid <;>
                simp [poolCollectE, poolCollect, poolTryBody, hw, hf, ih]

/-- `AsyncProcessPool.execute` never raises: its explicit-channel form
returns `ok` of the plain form for every combination of per-recipient
outcomes, submission failures and callback behaviour. -/
theorem poolExecuteE_eq_ok (subscribers : List (ℤ × String))
    (content caption : StrOrList) (methodRun : ℕ → Except PyExc Artifact)
    (submit : ℕ → Option PyExc) (cb : Option (ℤ → Except PyExc Unit)) :
    AsyncProcessPool.executeE subscribers content caption methodRun submit cb =
      .ok (AsyncProcessPool.execute subscribers content caption methodRun
        submit cb) := by
  rcases hps : poolSubmit (subscribers.zip
    ((toParallel content subscribers.length).zip
      (toParallel caption subscribers.length))) 0 submit with ⟨subFails, futures⟩
  simp [AsyncProcessPool.executeE, AsyncProcessPool.execute,
    poolSubmitE_eq_ok, poolCollectE_eq_ok, hps]

/-- With no submission failure, the multiprocessing-pool submission loop
returns the `(index, telegram_id, username)` triples in row order. -/
theorem mpSubmitE_all_ok (submit : ℕ → Option PyExc)
    (hsub : ∀ i, submit i = none) :
    ∀ (rows : List ((ℤ × String) × String × String)) (i : ℕ),
      mpSubmitE rows i submit =
        .ok ((rows.enumFrom i).map (fun p => (p.1, p.2.1.1, p.2.1.2))) := by
  intro rows
  induction rows with
  | nil => intro i; rfl
  | cons row rest ih =>
      intro i
      obtain ⟨⟨tid, uname⟩, pl, cap⟩ := row
      simp [mpSubmitE, hsub i, ih (i + 1), List.enumFrom_cons]

/-- The multiprocessing-pool collection loop never lets an exception escape:
its explicit-channel form returns `ok` of the plain form. -/
theorem mpCollectE_eq_ok (cb : Option (ℤ → Except PyExc Unit))
    (methodRun : ℕ → Except PyExc Artifact) :
    ∀ pairs : List ((ℕ × ℤ × String) × String),
      mpCollectE cb methodRun pairs = .ok (mpCollect cb methodRun pairs) := by
  intro pairs
  induction pairs with
  | nil => rfl
  | cons t rest ih =>
      obtain ⟨⟨i, tid, uname⟩, pl⟩ := t
      cases hw : is_error_information (broadcast_method_wrapper (methodRun i)) with
      | true => simp [mpCollectE, mpCollect, mpTryBody, hw, ih]
      | false =>
          cases cb with
          | none => simp [mpCollectE, mpCollect, mpTryBody, hw, ih]
          | some f =>
              cases hf : f tid <;>
                simp [mpCollectE, mpCollect, mpTryBody, hw, hf, ih]

/-- When no submission raises, `AsyncMultiProcessingPool.execute`'s
explicit-channel form returns `ok` of the plain form. -/
theorem mpExecuteE_eq_ok (subscribers : List (ℤ × String))
    (content caption : StrOrList) (methodRun : ℕ → Except PyExc Artifact)
    (submit : ℕ → Option PyExc) (cb : Option (ℤ → Except PyExc Unit))
    (hsub : ∀ i, submit i = none) :
    AsyncMultiProcessingPool.executeE subscribers content caption methodRun
        submit cb =
      .ok (AsyncMultiProcessingPool.execute subscribers content caption
        methodRun cb) := by
  simp [AsyncMultiProcessingPool.executeE, AsyncMultiProcessingPool.execute,
    mpSubmitE_all_ok submit hsub, mpCollectE_eq_ok, List.enum]

/-- A submission failure at loop position `j` contributes the corresponding
`ErrorInformation` entry to the process-pool result queue. -/
theorem poolSubmit_exc_mem (submit : ℕ → Option PyExc) :
    ∀ (rows : List ((ℤ × String) × String × String)) (i0 j : ℕ)
      (hj : j < rows.length) (e : PyExc), submit (i0 + j) = some e →
      errorEntry (rows.get ⟨j, hj⟩).1.1 (rows.get ⟨j, hj⟩).1.2
          (.str (rows.get ⟨j, hj⟩).2.1) e ∈ (poolSubmit rows i0 submit).1 := by
  intro rows
  induction rows with
  | nil => intro i0 j hj; simp at hj
  | cons row rest ih =>
      intro i0 j hj e hs
      obtain ⟨⟨tid, uname⟩, pl, cap⟩ := row
      cases j with
      | zero =>
          simp only [Nat.add_zero] at hs
          simp [poolSubmit, hs, List.get]
      | succ j =>
          have hj' : j < rest.length := by simpa using hj
          have hs' : submit (i0 + 1 + j) = some e := by
            rw [show i0 + 1 + j = i0 + (j + 1) from by omega]; exact hs
          have hmem := ih (i0 + 1) j hj' e hs'
          cases h0 : submit i0 with
          | none => simpa [poolSubmit, h0, List.get] using hmem
          | some e2 =>
              simp only [poolSubmit, h0, List.get]
              exact List.mem_cons_of_mem _ hmem

/-- C4 is refuted by the source: `AsyncMultiProcessingPool.execute`'s
submission loop (`pool.apply_async` at strategy.py:327-338) has no
`try`/`except`, so a submission failure is not converted into a
`JobResponse` — the exception propagates and the batch aborts with no
`(succeeded, failed)` pair. -/
theorem c4_mp_submission_aborts_counterexample :
    AsyncMultiProcessingPool.executeE [(1, "a")] (.str "p") (.str "")
        (fun _ => Except.ok (Artifact.photoSize "f"))
        (fun _ => some (PyExc.generic "OSError" "pool closed")) none =
      .error (PyExc.generic "OSError" "pool closed") := by
  rfl

/-- C4 as amended: every per-recipient failure that the strategies guard —
delivery exceptions of any kind and raising success callbacks in all three
strategies, and submission failures in the process-pool strategy — is
converted into an `ErrorInformation`-shaped `JobResponse` and folded into
the returned `(succeeded, failed)` pair without raising (proved with the
exception channels explicit); the delivery wrapper converts every worker
exception likewise.  A submission-time exception in the
multiprocessing-pool strategy, however, is unguarded and aborts the batch,
so that strategy's totality holds only when no submission raises. -/
theorem c4_execute_never_raises_amended (subscribers : List (ℤ × String))
    (content caption : StrOrList) (method : ℕ → CallOutcome)
    (methodRun : ℕ → Except PyExc Artifact) (submit : ℕ → Option PyExc)
    (cb : Option (ℤ → Except PyExc Unit)) :
    AsyncSequential.executeE subscribers content caption method cb =
      .ok (AsyncSequential.execute subscribers content caption method cb) ∧
    AsyncProcessPool.executeE subscribers content caption methodRun submit cb =
      .ok (AsyncProcessPool.execute subscribers content caption methodRun
        submit cb) ∧
    ((∀ i, submit i = none) →
      AsyncMultiProcessingPool.executeE subscribers content caption methodRun
          submit cb =
        .ok (AsyncMultiProcessingPool.execute subscribers content caption
          methodRun cb)) ∧
    (∀ e, broadcast_method_wrapper (.error e) = .errorInfo (errorInformationOf e)) ∧
    (∀ jr ∈ (AsyncSequential.execute subscribers content caption method cb).2,
      ∃ e, jr.result = .errorInfo e) ∧
    (∀ jr ∈ (AsyncProcessPool.execute subscribers content caption methodRun
        submit cb).2, ∃ e, jr.result = .errorInfo e) ∧
    (∀ jr ∈ (AsyncMultiProcessingPool.execute subscribers content caption
        methodRun cb).2, ∃ e, jr.result = .errorInfo e) ∧
    (∀ (j : ℕ)
      (hj : j < (subscribers.zip ((toParallel content subscribers.length).zip
        (toParallel caption subscribers.length))).length) (e : PyExc),
      method j = .exc e →
      errorEntry
          ((subscribers.zip ((toParallel content subscribers.length).zip
            (toParallel caption subscribers.length))).get ⟨j, hj⟩).1.1
          ((subscribers.zip ((toParallel content subscribers.length).zip
            (toParallel caption subscribers.length))).get ⟨j, hj⟩).1.2
          (.str ((subscribers.zip ((toParallel content subscribers.length).zip
            (toParallel caption subscribers.length))).get ⟨j, hj⟩).2.1) e ∈
        (AsyncSequential.execute subscribers content caption method cb).2) ∧
    (∀ (j : ℕ)
      (hj : j < (subscribers.zip ((toParallel content subscribers.length).zip
        (toParallel caption subscribers.length))).length) (e : PyExc),
      submit j = some e →
      errorEntry
          ((subscribers.zip ((toParallel content subscribers.length).zip
            (toParallel caption subscribers.length))).get ⟨j, hj⟩).1.1
          ((subscribers.zip ((toParallel content subscribers.length).zip
            (toParallel caption subscribers.length))).get ⟨j, hj⟩).1.2
          (.str ((subscribers.zip ((toParallel content subscribers.length).zip
            (toParallel caption subscribers.length))).get ⟨j, hj⟩).2.1) e ∈
        (AsyncProcessPool.execute subscribers content caption methodRun
          submit cb).2) := by
  refine ⟨(asyncSequential_executeE_ok_and_folds subscribers content caption
      method cb).1,
    poolExecuteE_eq_ok subscribers content caption methodRun submit cb,
    fun hsub => mpExecuteE_eq_ok subscribers content caption methodRun submit
      cb hsub,
    fun e => rfl,
    (asyncSequential_executeE_ok_and_folds subscribers content caption
      method cb).2.2.1,
    ?_, ?_,
    (asyncSequential_executeE_ok_and_folds subscribers content caption
      method cb).2.2.2.2,
    ?_⟩
  · intro jr hm
    rcases hps : poolSubmit (subscribers.zip
      ((toParallel content subscribers.length).zip
        (toParallel caption subscribers.length))) 0 submit with ⟨subFails, futures⟩
    simp only [AsyncProcessPool.execute, hps, separate_result_queue_eq_list] at hm
    exact separate_failed_errorInfo _ jr hm
  · intro jr hm
    simp only [AsyncMultiProcessingPool.execute, separate_result_queue_eq_list] at hm
    exact separate_failed_errorInfo _ jr hm
  · intro j hj e hs
    rcases hps : poolSubmit (subscribers.zip
      ((toParallel content subscribers.length).zip
        (toParallel caption subscribers.length))) 0 submit with ⟨subFails, futures⟩
    have hmem := poolSubmit_exc_mem submit (subscribers.zip
      ((toParallel content subscribers.length).zip
        (toParallel caption subscribers.length))) 0 j hj e (by simpa using hs)
    rw [hps] at hmem
    simp only [AsyncProcessPool.execute, hps, separate_result_queue_eq_list,
      separate_result_list_eq_filter]
    refine List.mem_filter.mpr ⟨List.mem_append_left _ hmem, ?_⟩
    simp [errorEntry, is_error_information]

/-- Concrete check of the amended C4: a submission failure in the
process-pool strategy still yields `ok` and is folded as a failure entry;
with no submission failures the multiprocessing-pool run also returns `ok`
of its pure result. -/
theorem c4_execute_never_raises_amended_witness :
    AsyncProcessPool.executeE [(1, "u")] (.str "p") (.str "")
        (fun _ => Except.error (PyExc.generic "E" "m"))
        (fun i => if i = 0 then some (PyExc.generic "S" "s") else none) none =
      .ok (AsyncProcessPool.execute [(1, "u")] (.str "p") (.str "")
        (fun _ => Except.error (PyExc.generic "E" "m"))
        (fun i => if i = 0 then some (PyExc.generic "S" "s") else none) none) ∧
    errorEntry 1 "u" (.str "p") (PyExc.generic "S" "s") ∈
      (AsyncProcessPool.execute [(1, "u")] (.str "p") (.str "")
        (fun _ => Except.error (PyExc.generic "E" "m"))
        (fun i => if i = 0 then some (PyExc.generic "S" "s") else none) none).2 ∧
    AsyncMultiProcessingPool.executeE [(1, "u")] (.str "p") (.str "")
        (fun _ => Except.error (PyExc.generic "E" "m")) (fun _ => none) none =
      .ok (AsyncMultiProcessingPool.execute [(1, "u")] (.str "p") (.str "")
        (fun _ => Except.error (PyExc.generic "E" "m")) none) := by
  refine ⟨(c4_execute_never_raises_amended [(1, "u")] (.str "p") (.str "")
      (fun _ => CallOutcome.ok (.photoSize "f"))
      (fun _ => Except.error (PyExc.generic "E" "m"))
      (fun i => if i = 0 then some (PyExc.generic "S" "s") else none) none).2.1,
    ?_, ?_⟩
  · have h := (c4_execute_never_raises_amended [(1, "u")] (.str "p") (.str "")
      (fun _ => CallOutcome.ok (.photoSize "f"))
      (fun _ => Except.error (PyExc.generic "E" "m"))
      (fun i => if i = 0 then some (PyExc.generic "S" "s") else none)
      none).2.2.2.2.2.2.2.2 0 (by decide) (PyExc.generic "S" "s") rfl
    simpa using h
  · exact (c4_execute_never_raises_amended [(1, "u")] (.str "p") (.str "")
      (fun _ => CallOutcome.ok (.photoSize "f"))
      (fun _ => Except.error (PyExc.generic "E" "m"))
      (fun _ => none) none).2.2.1 (fun _ => rfl)

end PTB
